import Mathlib

/-!
# Bus City Ticket App: browser scripts

A shallow embedding of the client scripts under `app/static/js`:

* `ticket_timer.js`: timestamp localization, `pad`, `formatDuration`, `initCountdown`
  and its `tick`, the public `TicketTimer.init`;
* `ticket_show.js`: the countdown of the ticket page (`fmt`, `tick`, the ready callback);
* `localtime.js`: `convert`;
* `paiements.js`: `setPayLoading`, `showError`, `computeAmountCents`, `onPayClicked`.

Conventions of the embedding.

* A JavaScript number that holds an integer (a time in milliseconds, a quantity, an
  amount) is an `Int`; `NaN` is `none` in an `Option Int`. Arithmetic on `Int` is exact
  where the code computes on doubles: the two agree on safe integers, below `2 ^ 53` in
  absolute value (`safeInteger`, `safeTime`). Rounding beyond that range is not modelled,
  and the theorems that state numeric results carry the range as a hypothesis.
* A value that is `null`, `undefined` or a string is an `Option String`; it is truthy when
  it is a non-empty string.
* The DOM is explicit state. Every write to an element is also appended to a log, so that
  "nothing was written" can be stated.
* Timers are explicit state: an interval is a flag that says whether the browser will still
  run the callback, and the callback is run through `fire`, which consults the flag.
* Functions of the browser that the scripts call and that have no arithmetic content
  (`Date.parse`, `Intl.DateTimeFormat`, `JSON.parse`) are fields of `Platform`.
-/

namespace BusCity

/-! ## JavaScript values -/

/-- The test `Number.isSafeInteger(n)` on an integer: `|n| <= 2 ^ 53 - 1`. Every integer of
this range is a double, and the sums, differences, products and floored quotients the
scripts compute are exact in double arithmetic while operands and results stay in it.
Outside it a double rounds (and prints in another notation from `1e21` on), which this
embedding does not model: the theorems on numbers are stated for this range. -/
def safeInteger (n : Int) : Prop :=
  -9007199254740992 < n ∧ n < 9007199254740992

instance (n : Int) : Decidable (safeInteger n) := by
  unfold safeInteger
  infer_instance

/-- A time value less than `2 ^ 51` ms from the epoch (some 71 000 years either way). The
differences and sums `initCountdown` and `tick` form from an expiry, a server time and
two readings of the client clock of this range are safe integers, hence exact in double
arithmetic. -/
def safeTime (t : Int) : Prop :=
  -2251799813685248 < t ∧ t < 2251799813685248

instance (t : Int) : Decidable (safeTime t) := by
  unfold safeTime
  infer_instance

/-- Truthiness of a value that is `null`/`undefined` (`none`) or a string. -/
def truthy : Option String → Bool
  | some s => s != ""
  | none => false

/-- The operator `a || b` on values that are `null`/`undefined` or strings. -/
def jsOr (a b : Option String) : Option String :=
  if truthy a then a else b

/-- White space and line terminators of ECMAScript (`WhiteSpace` and `LineTerminator`),
the characters `String.prototype.trim` and `parseInt` strip. -/
def isJsWhiteSpace (c : Char) : Bool :=
  let n := c.toNat
  n == 9 || n == 10 || n == 11 || n == 12 || n == 13 || n == 32 || n == 160 ||
  n == 5760 || (8192 ≤ n && n ≤ 8202) || n == 8232 || n == 8233 || n == 8239 ||
  n == 8287 || n == 12288 || n == 65279

/-- The method `String.prototype.trim`. -/
def jsTrim (s : String) : String :=
  String.mk ((s.toList.dropWhile isJsWhiteSpace).reverse.dropWhile isJsWhiteSpace).reverse

/-- Result of `JSON.parse`, as far as `paiements.js` reads it: `null`, an object with its
properties `error`, `message` and `client_secret` (absent is `none`; when present they
are strings, as the server sends them), or any other value (a boolean, a number, a string:
reading a property of it gives `undefined`). -/
inductive Json where
  | null
  | object (error message clientSecret : Option String)
  | other
deriving DecidableEq, Repr

/-- Property `error` of the parsed body (`undefined` is `none`). -/
def Json.error : Json → Option String
  | .object e _ _ => e
  | _ => none

/-- Property `message` of the parsed body. -/
def Json.message : Json → Option String
  | .object _ m _ => m
  | _ => none

/-- Property `client_secret` of the parsed body. -/
def Json.clientSecret : Json → Option String
  | .object _ _ c => c
  | _ => none

/-- Functions of the browser used by the scripts. A date is its time value in
milliseconds; `dateParse` is `Date.parse` (and the time value of `new Date(s)`), with
`none` for `NaN` (an invalid date). -/
structure Platform where
  /-- `Date.parse(s)`, the time value of `new Date(s)`. -/
  dateParse : String → Option Int
  /-- `dateFmt.format(d)` of `ticket_timer.js` (an `Intl.DateTimeFormat`). -/
  dateFmtFormat : Int → String
  /-- `d.toString()`. -/
  dateToString : Int → String
  /-- `d.toLocaleString(undefined, ...)` of `localtime.js` (its `fmt`). -/
  toLocaleString : Int → String
  /-- `JSON.parse(txt)`; `none` when it throws. -/
  jsonParse : String → Option Json
  /-- Message of the `TypeError` raised by reading a property of `null`. -/
  nullReadMessage : String

/-! ## DOM elements -/

/-- The part of a DOM element the scripts read and write. -/
structure Element where
  textContent : String
  classList : List String
  attributes : List (String × String)
deriving DecidableEq, Repr

/-- Replace the value of attribute `k`, or add the attribute. -/
def setAttr : List (String × String) → String → String → List (String × String)
  | [], k, v => [(k, v)]
  | (k0, v0) :: rest, k, v =>
    if k0 = k then (k, v) :: rest else (k0, v0) :: setAttr rest k v

namespace Element

/-- The method `el.getAttribute(name)`; `el.dataset.x` reads the attribute `data-x`. -/
def getAttribute (el : Element) (name : String) : Option String :=
  el.attributes.lookup name

/-- The method `el.setAttribute(name, value)`. -/
def setAttribute (el : Element) (name value : String) : Element :=
  { el with attributes := setAttr el.attributes name value }

/-- The method `el.classList.add(c)`. -/
def classAdd (el : Element) (c : String) : Element :=
  { el with classList := if c ∈ el.classList then el.classList else el.classList ++ [c] }

/-- The method `el.classList.remove(c)`. -/
def classRemove (el : Element) (c : String) : Element :=
  { el with classList := el.classList.filter (fun x => x != c) }

end Element

/-- A write to a DOM element. -/
inductive DomWrite where
  | textContent (s : String)
  | classRemove (c : String)
  | classAdd (c : String)
  | setAttribute (name value : String)
deriving DecidableEq, Repr

/-- Effect of a write on the element. -/
def DomWrite.apply (el : Element) : DomWrite → Element
  | .textContent s => { el with textContent := s }
  | .classRemove c => el.classRemove c
  | .classAdd c => el.classAdd c
  | .setAttribute k v => el.setAttribute k v

/-! ## `localtime.js` -/

namespace LocalTime

/-- The function `convert(el)` of `localtime.js`. -/
def convert (P : Platform) (el : Element) : Element :=
  let iso := jsOr (jsOr (el.getAttribute "datetime") (el.getAttribute "data-dt"))
    (some (jsTrim el.textContent))
  if !truthy iso then el else
  match P.dateParse (iso.getD "") with
  | none => el
  | some d => { el with textContent := P.toLocaleString d }

end LocalTime

/-! ## `ticket_timer.js` -/

namespace TicketTimer

/-- The function `localizeTimeElement(el)`. -/
def localizeTimeElement (P : Platform) (el : Element) : Element :=
  let iso := jsOr (el.getAttribute "data-dt") (el.getAttribute "datetime")
  if !truthy iso then el else
  match P.dateParse (iso.getD "") with
  | none => el
  | some d => ({ el with textContent := P.dateFmtFormat d }).setAttribute "title" (P.dateToString d)

/-- The function `pad(n)`: `n = Math.floor(Math.abs(n))`, then `n < 10 ? "0" + n : String(n)`. -/
def pad (n : Int) : String :=
  let m := n.natAbs
  if m < 10 then "0" ++ toString m else toString m

/-- The function `formatDuration(ms)`. `Math.floor(x / k)` is `/` on `Int` (which rounds
down for a positive divisor) and `%` is the truncating `Int.tmod`. The code divides
doubles: for a safe integer `ms` (see `safeInteger`) every quotient it floors and the
day count it prints are the exact ones computed here; for larger `ms` the double
quotient rounds, which is not modelled. -/
def formatDuration (ms : Int) : String :=
  if ms ≤ 0 then "00:00:00" else
  let totalSec := ms / 1000
  let days := totalSec / 86400
  let hours := (Int.tmod totalSec 86400) / 3600
  let mins := (Int.tmod totalSec 3600) / 60
  let secs := Int.tmod totalSec 60
  if days > 0 then
    toString days ++ "j " ++ pad hours ++ ":" ++ pad mins ++ ":" ++ pad secs
  else
    pad hours ++ ":" ++ pad mins ++ ":" ++ pad secs

/-- The options object: the truthiness of `autoReloadOnExpire` (absent is falsy). -/
structure Opts where
  autoReloadOnExpire : Bool := false
deriving DecidableEq, Repr

/-- State of one call of `initCountdown`: the element, the variables of the closure
(`expiresAtMs`, `offsetMs`, `opts`, `timerId`) and what the browser holds for it. -/
structure Countdown where
  el : Element
  expiresAtMs : Int
  offsetMs : Int
  opts : Option Opts
  /-- Variable `timerId`: `none` is `null`. -/
  timerId : Option Nat
  /-- The interval made by `setInterval(tick, 1000)` is still scheduled. -/
  interval : Bool
  /-- The `MutationObserver` is connected. -/
  observing : Bool
  /-- Delays (ms) of the scheduled `setTimeout(() => window.location.reload(), _)`. -/
  reloads : List Nat
  /-- Writes made to `el`, oldest first. -/
  writes : List DomWrite
  /-- Number of executions of `tick`. -/
  ticks : Nat
deriving DecidableEq, Repr

/-- State after an early `return` of `initCountdown`: nothing written, no timer, no
observer (the time fields are not used). -/
def Countdown.idle (el : Element) (opts : Option Opts) : Countdown :=
  { el := el, expiresAtMs := 0, offsetMs := 0, opts := opts, timerId := none,
    interval := false, observing := false, reloads := [], writes := [], ticks := 0 }

/-- Value of `remaining` in `tick`: `expiresAtMs - (Date.now() + offsetMs)`. The sum and
the difference are exact here; the doubles of the code agree as long as both stay
within `2 ^ 53` in absolute value, which `safeTime` operands ensure. -/
def remaining (expiresAtMs offsetMs now : Int) : Int :=
  let nowByServerMs := now + offsetMs
  expiresAtMs - nowByServerMs

/-- The DOM writes of one `tick`, in order, for a value of `remaining`. -/
def tickWrites (remaining : Int) : List DomWrite :=
  if remaining ≤ 0 then
    [.textContent "Expiré", .classRemove "text-warning", .classAdd "text-danger"]
  else
    [if remaining ≤ 5 * 60 * 1000 then .classAdd "text-warning"
      else .classRemove "text-warning",
     .textContent (formatDuration remaining),
     .setAttribute "aria-label" ("Temps restant " ++ formatDuration remaining)]

/-- The closure `tick()` of `initCountdown`, run when `Date.now()` is `now`. -/
def tick (now : Int) (c : Countdown) : Countdown :=
  let remaining := remaining c.expiresAtMs c.offsetMs now
  let ws := tickWrites remaining
  let c1 := { c with el := ws.foldl DomWrite.apply c.el, writes := c.writes ++ ws,
                     ticks := c.ticks + 1 }
  if remaining ≤ 0 then
    { c1 with
      -- if (timerId) clearInterval(timerId);
      interval := if c.timerId.isSome then false else c.interval,
      -- if (opts && opts.autoReloadOnExpire) setTimeout(reload, 800);
      reloads := match c.opts with
        | some o => if o.autoReloadOnExpire then c.reloads ++ [800] else c.reloads
        | none => c.reloads }
  else c1

/-- The function `initCountdown(el, opts)` for a non-null `el`. `now0` is the reading of
`Date.now()` that fixes `offsetMs`, `now1` the reading in the immediate first `tick()`.
The handle returned by `setInterval` is a positive integer (truthy); it is `1` here. -/
def initCountdown (P : Platform) (el : Element) (opts : Option Opts) (now0 now1 : Int) :
    Countdown :=
  let expiresIso := el.getAttribute "data-expires-at"
  let serverNowIso := el.getAttribute "data-server-now"
  if !truthy expiresIso || !truthy serverNowIso then Countdown.idle el opts else
  match P.dateParse (expiresIso.getD ""), P.dateParse (serverNowIso.getD "") with
  | some expiresAtMs, some serverNowMs =>
    let offsetMs := serverNowMs - now0
    let c0 : Countdown :=
      { el := el, expiresAtMs := expiresAtMs, offsetMs := offsetMs, opts := opts,
        timerId := none, interval := false, observing := false, reloads := [],
        writes := [], ticks := 0 }
    let c1 := tick now1 c0
    { c1 with timerId := some 1, interval := true, observing := true }
  | _, _ => Countdown.idle el opts

/-- The method `TicketTimer.init(target, options)`: `el` is the element `target` resolves
to (`none` when there is none); `opts` is `options`, or an empty object when `options`
is falsy. Without an element nothing happens. -/
def init (P : Platform) (el : Option Element) (options : Option Opts) (now0 now1 : Int) :
    Option Countdown :=
  let opts : Opts := options.getD {}
  el.map (fun e => initCountdown P e (some opts) now0 now1)

/-- The browser fires the interval: `tick` runs only if the interval is still scheduled. -/
def fire (now : Int) (c : Countdown) : Countdown :=
  if c.interval then tick now c else c

/-- The callback of the `MutationObserver`, run by the browser after a change of the
document while the observer is connected; `contained` is `document.body.contains(el)`. -/
def mutation (contained : Bool) (c : Countdown) : Countdown :=
  if c.observing then
    if !contained then { c with interval := false, observing := false } else c
  else c

/-- Firings of the interval at the successive readings `nows` of `Date.now()`. -/
def run (c : Countdown) (nows : List Int) : Countdown :=
  nows.foldl (fun c now => fire now c) c

/-- Texts written to the element, oldest first: the sequence of texts displayed. -/
def displayed (c : Countdown) : List String :=
  c.writes.filterMap (fun w => match w with
    | .textContent s => some s
    | _ => none)

end TicketTimer

/-! ## `ticket_show.js` -/

namespace TicketShow

/-- Subtraction of two numbers (or of two dates); `none` is `NaN`. -/
def jsSub (a b : Option Int) : Option Int :=
  match a, b with
  | some x, some y => some (x - y)
  | _, _ => none

/-- The call `Math.max(0, x)`. -/
def jsMax0 (x : Option Int) : Option Int :=
  x.map (fun v => max 0 v)

/-- The call `Math.min(a, b)`. -/
def jsMin (a b : Option Int) : Option Int :=
  match a, b with
  | some x, some y => some (min x y)
  | _, _ => none

/-- Truthiness of a number: neither `0` nor `NaN`. -/
def truthyNum : Option Int → Bool
  | some n => n != 0
  | none => false

/-- The comparison `x < 10`, false on `NaN`. -/
def lt10 : Option Int → Bool
  | some n => n < 10
  | none => false

/-- The comparison `x <= 0`, false on `NaN`. -/
def le0 : Option Int → Bool
  | some n => n ≤ 0
  | none => false

/-- Conversion of an integer-valued number to a string in a concatenation. -/
def numStr : Option Int → String
  | some n => toString n
  | none => "NaN"

/-- The function `fmt(ms)` of `ticket_show.js`. -/
def fmt (ms : Option Int) : String :=
  let s := jsMax0 (ms.map (fun v => v / 1000))
  let h := s.map (fun v => v / 3600)
  let m := s.map (fun v => Int.tmod v 3600 / 60)
  let sec := s.map (fun v => Int.tmod v 60)
  (if truthyNum h then numStr h ++ "h " else "") ++
    (if lt10 m then "0" ++ numStr m else numStr m) ++ "m " ++
    (if lt10 sec then "0" ++ numStr sec else numStr sec) ++ "s"

/-- Attributes of `#timing-data`, read through `box.dataset`. -/
structure Dataset where
  serverNow : Option String
  validatedAt : Option String
  expiresAt : Option String
deriving DecidableEq, Repr

/-- What the ready callback finds in the document: `#timing-data`, and whether
`#countdown-label` and `#countdown-bar` exist. -/
structure Page where
  box : Option Dataset
  hasLabel : Bool
  hasBar : Bool
deriving DecidableEq, Repr

/-- Value of `pct` in `tick`. `round used totalMs` stands for
`Math.round((used / totalMs) * 100)`, a floating-point computation that is kept
symbolic; `nan` is `Math.round(NaN)`; `hundred` is the literal `100`. -/
inductive Pct where
  | round (used totalMs : Int)
  | nan
  | hundred
deriving DecidableEq, Repr

/-- A write of the countdown to the document. -/
inductive ShowWrite where
  /-- The assignment `label.textContent = s`. -/
  | labelText (s : String)
  /-- The assignment `bar.style.width = pct + "%"`. -/
  | barWidth (pct : Pct)
deriving DecidableEq, Repr

/-- An exception that leaves the script uncaught. -/
inductive Uncaught where
  /-- A `let`/`const` variable is read before its declaration is evaluated. -/
  | referenceError (name : String)
deriving DecidableEq, Repr

/-- State of the countdown of `ticket_show.js`: the variables of the ready callback and
what the browser holds for it. -/
structure Show where
  /-- Time value of the date `now`. -/
  now : Option Int
  validated : Option Int
  expires : Option Int
  totalMs : Option Int
  hasLabel : Bool
  hasBar : Bool
  /-- The constant `timer`: `none` until `const timer = setInterval(...)` is evaluated. -/
  timer : Option Nat
  /-- The interval made by `setInterval(tick, 1000)` is still scheduled. -/
  interval : Bool
  /-- Delays (ms) of the scheduled `setTimeout(() => location.reload(), _)`. -/
  reloads : List Nat
  /-- Writes made to the document, oldest first. -/
  writes : List ShowWrite
  /-- Exception that ended the script, if any. -/
  error : Option Uncaught
  /-- Number of executions of `tick`. -/
  ticks : Nat
deriving DecidableEq, Repr

/-- State when the ready callback returns before the countdown is set up. -/
def Show.idle (page : Page) : Show :=
  { now := none, validated := none, expires := none, totalMs := none,
    hasLabel := page.hasLabel, hasBar := page.hasBar, timer := none, interval := false,
    reloads := [], writes := [], error := none, ticks := 0 }

/-- The function `tick()` of `ticket_show.js`. Reading `timer` before its declaration
is evaluated throws a `ReferenceError`, which ends the call. The date
`new Date(now.getTime() + 1000)` is taken to be valid when `now` is, and the differences
of dates to be exact: time values are assumed to stay in the range `safeTime`, well
inside the range of `Date` (which ends at 8.64e15 ms). -/
def tick (s : Show) : Show :=
  let now := s.now.map (fun v => v + 1000)
  let remaining := jsMax0 (jsSub s.expires now)
  let w1 := if s.hasLabel then [ShowWrite.labelText (fmt remaining)] else []
  let used := jsMin s.totalMs (jsMax0 (jsSub now s.validated))
  let pct :=
    if truthyNum s.totalMs then
      match used, s.totalMs with
      | some u, some t => Pct.round u t
      | _, _ => Pct.nan
    else Pct.hundred
  let w2 := if s.hasBar then [ShowWrite.barWidth pct] else []
  let s1 := { s with now := now, writes := s.writes ++ w1 ++ w2, ticks := s.ticks + 1 }
  if le0 remaining then
    match s.timer with
    | none => { s1 with error := some (.referenceError "timer") }
    | some _ =>
      { s1 with
        interval := false,
        writes := s1.writes ++ (if s.hasLabel then [ShowWrite.labelText "Expiré"] else []),
        reloads := s.reloads ++ [1200] }
  else s1

/-- The countdown part of the ready callback (the copy and print buttons before it only
register listeners). `localNow` is the time value of `new Date()`. -/
def ready (P : Platform) (page : Page) (localNow : Int) : Show :=
  match page.box with
  | none => Show.idle page
  | some box =>
    if !truthy box.expiresAt || !truthy box.validatedAt then Show.idle page else
    let now := if truthy box.serverNow then P.dateParse (box.serverNow.getD "")
      else some localNow
    let validated := P.dateParse (box.validatedAt.getD "")
    let expires := P.dateParse (box.expiresAt.getD "")
    let totalMs := jsMax0 (jsSub expires validated)
    let s0 : Show :=
      { now := now, validated := validated, expires := expires, totalMs := totalMs,
        hasLabel := page.hasLabel, hasBar := page.hasBar, timer := none,
        interval := false, reloads := [], writes := [], error := none, ticks := 0 }
    let s1 := tick s0
    if s1.error.isSome then s1 else { s1 with timer := some 1, interval := true }

/-- The browser fires the interval: `tick` runs only if the interval is still scheduled. -/
def fire (s : Show) : Show :=
  if s.interval then tick s else s

/-- The state after `n` firings of the interval, one second apart. -/
def run (s : Show) : Nat → Show
  | 0 => s
  | n + 1 => fire (run s n)

/-- Texts written to the label, oldest first. -/
def labelTexts (s : Show) : List String :=
  s.writes.filterMap (fun w => match w with
    | .labelText t => some t
    | _ => none)

end TicketShow

/-! ## `paiements.js` -/

namespace Paiements

/-- The table `PRICES` (cents). -/
def PRICES : List (String × Int) :=
  [("single", 150), ("day", 500), ("week", 1500), ("month", 4500)]

/-- Names of the properties every object literal inherits from `Object.prototype`:
reading one of them on `PRICES` gives a function or an object, not a number. -/
def objectPrototypeKeys : List String :=
  ["constructor", "__defineGetter__", "__defineSetter__", "hasOwnProperty",
   "__lookupGetter__", "__lookupSetter__", "isPrototypeOf", "propertyIsEnumerable",
   "toString", "valueOf", "__proto__", "toLocaleString"]

/-- The call `parseInt(s, 10)` on a string: leading white space, an optional sign, then
the longest run of decimal digits; `none` (`NaN`) without a digit. The value is the
exact integer the digits denote: so is the double `parseInt` returns when that integer
is safe (see `safeInteger`); for a longer run of digits the code gets a rounded double or
`Infinity`, which is not modelled. -/
def parseInt10 (s : String) : Option Int :=
  let cs := s.toList.dropWhile isJsWhiteSpace
  let neg := cs.head? = some '-'
  let ds := match cs with
    | '-' :: r => r
    | '+' :: r => r
    | _ => cs
  let digits := ds.takeWhile Char.isDigit
  if digits.isEmpty then none else
  let n : Nat := digits.foldl (fun a c => a * 10 + (c.toNat - 48)) 0
  some (if neg then -(n : Int) else (n : Int))

/-- Result of `computeAmountCents`; `amount` is `none` when it is `NaN`. -/
structure Amount where
  amount : Option Int
  type : String
  qty : Int
deriving DecidableEq, Repr

/-- The function `computeAmountCents()`. `typeValue` is `typeSel && typeSel.value` and
`qtyValue` is `qtyInput && qtyInput.value` (`none` when the element is absent). The
quantity and the product are exact integers: so are the doubles of the code as long as
the product is a safe integer (see `safeInteger`). -/
def computeAmountCents (typeValue qtyValue : Option String) : Amount :=
  let type := (jsOr typeValue (some "single")).getD "single"
  -- PRICES[type] || PRICES.single; `none` is a value that is not a number
  let unit : Option Int :=
    match PRICES.lookup type with
    | some p => some p
    | none => if type ∈ objectPrototypeKeys then none else some 150
  let parsed : Option Int := qtyValue.bind parseInt10
  let qty : Int := max 1 (match parsed with
    | some n => if n != 0 then n else 1
    | none => 1)
  { amount := unit.map (fun u => u * qty), type := type, qty := qty }

/-- A thrown `Error` object. -/
structure JsError where
  name : String
  message : String
deriving DecidableEq, Repr

/-- The method `Error.prototype.toString`. -/
def JsError.toString (e : JsError) : String :=
  if e.name = "" then e.message
  else if e.message = "" then e.name
  else e.name ++ ": " ++ e.message

/-- The expression `String(err.message || err)` of the `catch` block. -/
def errText (e : JsError) : String :=
  if e.message != "" then e.message else e.toString

/-- A `Response`: its `ok` flag and the outcome of `await resp.text()`. -/
structure Response where
  ok : Bool
  text : Except JsError String

/-- The `paymentIntent` of a Stripe result. -/
structure PaymentIntent where
  status : String
  id : String
deriving DecidableEq, Repr

/-- The `error` of a Stripe result, with its `message` if it has one. -/
structure StripeError where
  message : Option String
deriving DecidableEq, Repr

/-- The object `stripe.confirmCardPayment` resolves to. -/
structure ConfirmResult where
  error : Option StripeError
  paymentIntent : Option PaymentIntent
deriving DecidableEq, Repr

/-- The form values and the outcome of every awaited call of one click on "Payer". -/
structure PayEnv where
  typeValue : Option String
  qtyValue : Option String
  /-- The expression `nameInput && nameInput.value`. -/
  nameValue : Option String
  /-- Outcome of `fetch(CREATE_PI_URL, ...)`. -/
  createIntent : Except JsError Response
  /-- Outcome of `stripe.confirmCardPayment(...)`. -/
  confirm : Except JsError ConfirmResult
  /-- Outcome of `fetch(FINALIZE_URL, ...)`. -/
  finalize : Except JsError Response

/-- A step of the payment sequence that was started. -/
inductive Call where
  | createIntent (amountCents : Option Int) (type : String) (qty : Int)
  | confirm (clientSecret cardHolder : String)
  | finalize (piId type : String) (qty : Int)
deriving DecidableEq, Repr

/-- The pay button. -/
structure Button where
  disabled : Bool
  innerText : String
deriving DecidableEq, Repr

/-- What the user sees, and the steps started so far. -/
structure Ui where
  /-- The element `#card-pay`, if present. -/
  payBtn : Option Button
  /-- Text of `#card-errors`, if the element is present. -/
  errBox : Option String
  /-- Messages of the `alert` dialogs, oldest first. -/
  alerts : List String
  /-- Value assigned to `window.location.href`, if any. -/
  href : Option String
  calls : List Call
deriving DecidableEq, Repr

/-- The function `setPayLoading(yes)`. -/
def setPayLoading (yes : Bool) (ui : Ui) : Ui :=
  match ui.payBtn with
  | none => ui
  | some _ =>
    { ui with payBtn := some { disabled := yes,
                               innerText := if yes then "Traitement…" else "Payer" } }

/-- The function `showError(msg)` for a string `msg`. -/
def showError (msg : String) (ui : Ui) : Ui :=
  match ui.errBox with
  | some _ => { ui with errBox := some msg }
  | none => { ui with alerts := ui.alerts ++ [msg] }

/-- The `try` block of `onPayClicked`: the state it leaves and the exception it throws,
if any. -/
def tryBlock (P : Platform) (env : PayEnv) (ui : Ui) : Ui × Option JsError :=
  let a := computeAmountCents env.typeValue env.qtyValue
  let ui := { ui with calls := ui.calls ++ [.createIntent a.amount a.type a.qty] }
  match env.createIntent with
  | .error e => (ui, some e)
  | .ok resp =>
  match resp.text with
  | .error e => (ui, some e)
  | .ok txt =>
  -- let data = {}; try { data = JSON.parse(txt) } catch {}
  let data : Json := (P.jsonParse txt).getD (.object none none none)
  if !resp.ok then
    let msg := jsOr (jsOr (jsOr data.error data.message) (some txt))
      (some "Erreur lors de la création du paiement.")
    (ui, some { name := "Error", message := msg.getD "" })
  else
  if data = .null then (ui, some { name := "TypeError", message := P.nullReadMessage })
  else
  let clientSecret := data.clientSecret
  if !truthy clientSecret then (ui, some { name := "Error", message := "client_secret manquant" })
  else
  let cardHolder := if truthy env.nameValue then jsTrim (env.nameValue.getD "") else "Client"
  let ui := { ui with calls := ui.calls ++ [.confirm (clientSecret.getD "") cardHolder] }
  match env.confirm with
  | .error e => (ui, some e)
  | .ok r =>
  match r.error with
  | some err =>
    (ui, some { name := "Error",
                message := (jsOr err.message (some "Le paiement a été refusé.")).getD "" })
  | none =>
  match r.paymentIntent with
  | none => (showError "Paiement en attente ou à vérifier." ui, none)
  | some pi =>
    if pi.status = "succeeded" then
      let ui := { ui with calls := ui.calls ++ [.finalize pi.id a.type a.qty] }
      match env.finalize with
      | .error e => (ui, some e)
      | .ok fin =>
        if !fin.ok then
          match fin.text with
          | .error e => (ui, some e)
          | .ok t => (ui, some { name := "Error",
                                 message := "Création des tickets échouée: " ++ t })
        else ({ ui with href := some "/tickets/" }, none)
    else (showError "Paiement en attente ou à vérifier." ui, none)

/-- The handler `onPayClicked(e)`. -/
def onPayClicked (P : Platform) (env : PayEnv) (ui : Ui) : Ui :=
  let ui := showError "" ui
  let ui := setPayLoading true ui
  let (ui, thrown) := tryBlock P env ui
  let ui := match thrown with
    | some err => showError (errText err) ui
    | none => ui
  setPayLoading false ui

/-- The message in front of the user: the text of the error box, or the last alert. -/
def Ui.shown (ui : Ui) : Option String :=
  match ui.errBox with
  | some t => some t
  | none => ui.alerts.getLast?

end Paiements


/-! ## Reading a formatted duration back -/

namespace TicketTimer

/-- The two decimal digits of `n` (for `n < 100`), zero-padded. -/
def twoDigits (n : Nat) : String :=
  String.mk [Nat.digitChar (n / 10), Nat.digitChar (n % 10)]

/-- The text `HH:MM:SS` of a number `t` of seconds: `HH = t mod 86400 div 3600`,
`MM = t mod 3600 div 60`, `SS = t mod 60`, each as two decimal digits. -/
def hmsText (t : Nat) : String :=
  twoDigits (t % 86400 / 3600) ++ ":" ++ twoDigits (t % 3600 / 60) ++ ":" ++
    twoDigits (t % 60)

/-- Value of a string of decimal digits. -/
def digitsValue (cs : List Char) : Nat :=
  cs.foldl (fun a c => a * 10 + (c.toNat - 48)) 0

/-- Seconds denoted by `HH:MM:SS`. -/
def parseHMS : List Char → Option Nat
  | [h1, h2, ':', m1, m2, ':', s1, s2] =>
    if [h1, h2, m1, m2, s1, s2].all Char.isDigit then
      some (digitsValue [h1, h2] * 3600 + digitsValue [m1, m2] * 60 + digitsValue [s1, s2])
    else none
  | _ => none

/-- Duration in milliseconds denoted by a text `<d>j HH:MM:SS` or `HH:MM:SS`:
`days * 86400 + HH * 3600 + MM * 60 + SS` seconds, with `days = 0` without the `j` part. -/
def parseDuration (s : String) : Option Int :=
  let cs := s.toList
  let days := cs.takeWhile Char.isDigit
  match cs.dropWhile Char.isDigit with
  | 'j' :: ' ' :: rest =>
    if days.isEmpty then none else
    (parseHMS rest).map (fun hms => (((digitsValue days * 86400 + hms) * 1000 : Nat) : Int))
  | _ => (parseHMS cs).map (fun hms => ((hms * 1000 : Nat) : Int))

end TicketTimer

/-! ## Example data -/

namespace Example

/-- Timestamps used in the examples, with their time value in milliseconds. -/
def isoTable : List (String × Int) :=
  [("2024-01-01T00:00:00Z", 1704067200000),
   ("2024-01-01T00:00:01Z", 1704067201000),
   ("2024-01-01T00:01:30Z", 1704067290000)]

/-- A browser for the examples: `Date.parse` gives the time value of the timestamps of
`isoTable`, and `NaN` on the other strings the examples use (none of them is a date). -/
def platform : Platform :=
  { dateParse := fun s => isoTable.lookup s
    dateFmtFormat := fun d => "short " ++ toString d
    dateToString := fun d => "full " ++ toString d
    toLocaleString := fun d => "locale " ++ toString d
    jsonParse := fun s =>
      if s = "null" then some Json.null
      else if s = "secret" then some (Json.object none none (some "pi_1_secret"))
      else none
    nullReadMessage := "data is null" }

/-- Reading of the client clock at initialization in the examples. -/
def t0 : Int := 1704067200000

/-- A countdown element that is already expired: `data-expires-at` equals
`data-server-now`. -/
def expiredEl : Element :=
  { textContent := "", classList := [],
    attributes := [("data-expires-at", "2024-01-01T00:00:00Z"),
                   ("data-server-now", "2024-01-01T00:00:00Z")] }

/-- A countdown element that expires 90 seconds after `data-server-now`. -/
def ninetyEl : Element :=
  { textContent := "", classList := [],
    attributes := [("data-expires-at", "2024-01-01T00:01:30Z"),
                   ("data-server-now", "2024-01-01T00:00:00Z")] }

/-- A countdown element without `data-server-now`. -/
def noServerNowEl : Element :=
  { textContent := "--:--:--", classList := ["fw-bold"],
    attributes := [("data-expires-at", "2024-01-01T00:01:30Z")] }

/-- The readings `t0 + 1000`, `t0 + 2000`, ..., `t0 + 1000 * n` of the client clock. -/
def everySecond (n : Nat) : List Int :=
  (List.range n).map (fun k => t0 + 1000 * ((k : Int) + 1))

/-- Ticket page validated at `serverNow`, expiring one second later. -/
def oneSecondPage : TicketShow.Page :=
  { box := some { serverNow := some "2024-01-01T00:00:00Z",
                  validatedAt := some "2024-01-01T00:00:00Z",
                  expiresAt := some "2024-01-01T00:00:01Z" },
    hasLabel := true, hasBar := true }

/-- Ticket page validated at `serverNow`, expiring 90 seconds later. -/
def ninetyPage : TicketShow.Page :=
  { box := some { serverNow := some "2024-01-01T00:00:00Z",
                  validatedAt := some "2024-01-01T00:00:00Z",
                  expiresAt := some "2024-01-01T00:01:30Z" },
    hasLabel := true, hasBar := true }

/-- Ticket page without `data-server-now`. -/
def noServerNowPage : TicketShow.Page :=
  { box := some { serverNow := none,
                  validatedAt := some "2024-01-01T00:00:00Z",
                  expiresAt := some "2024-01-01T00:01:30Z" },
    hasLabel := true, hasBar := true }

/-- Ticket page without `data-expires-at`. -/
def noExpiresPage : TicketShow.Page :=
  { box := some { serverNow := some "2024-01-01T00:00:00Z",
                  validatedAt := some "2024-01-01T00:00:00Z",
                  expiresAt := none },
    hasLabel := true, hasBar := true }

/-- A `time` element with a valid `datetime` attribute. -/
def timeEl : Element :=
  { textContent := "2024-01-01 00:00", classList := ["js-localtime"],
    attributes := [("datetime", "2024-01-01T00:00:00Z")] }

end Example

namespace Example

/-- The sequence of texts of the 90-second example as the specification gives it:
`00:01:30` down to `00:00:00`, then `Expiré`. -/
def specTexts : List String :=
  ["00:01:30", "00:01:29", "00:01:28", "00:01:27", "00:01:26", "00:01:25", "00:01:24",
   "00:01:23", "00:01:22", "00:01:21", "00:01:20", "00:01:19", "00:01:18", "00:01:17",
   "00:01:16", "00:01:15", "00:01:14", "00:01:13", "00:01:12", "00:01:11", "00:01:10",
   "00:01:09", "00:01:08", "00:01:07", "00:01:06", "00:01:05", "00:01:04", "00:01:03",
   "00:01:02", "00:01:01", "00:01:00", "00:00:59", "00:00:58", "00:00:57", "00:00:56",
   "00:00:55", "00:00:54", "00:00:53", "00:00:52", "00:00:51", "00:00:50", "00:00:49",
   "00:00:48", "00:00:47", "00:00:46", "00:00:45", "00:00:44", "00:00:43", "00:00:42",
   "00:00:41", "00:00:40", "00:00:39", "00:00:38", "00:00:37", "00:00:36", "00:00:35",
   "00:00:34", "00:00:33", "00:00:32", "00:00:31", "00:00:30", "00:00:29", "00:00:28",
   "00:00:27", "00:00:26", "00:00:25", "00:00:24", "00:00:23", "00:00:22", "00:00:21",
   "00:00:20", "00:00:19", "00:00:18", "00:00:17", "00:00:16", "00:00:15", "00:00:14",
   "00:00:13", "00:00:12", "00:00:11", "00:00:10", "00:00:09", "00:00:08", "00:00:07",
   "00:00:06", "00:00:05", "00:00:04", "00:00:03", "00:00:02", "00:00:01", "00:00:00", "Expiré"]

/-- The texts `ticket_timer.js` writes in the 90-second example: `00:01:30` down to
`00:00:01`, then `Expiré`. -/
def timerTexts : List String :=
  ["00:01:30", "00:01:29", "00:01:28", "00:01:27", "00:01:26", "00:01:25", "00:01:24",
   "00:01:23", "00:01:22", "00:01:21", "00:01:20", "00:01:19", "00:01:18", "00:01:17",
   "00:01:16", "00:01:15", "00:01:14", "00:01:13", "00:01:12", "00:01:11", "00:01:10",
   "00:01:09", "00:01:08", "00:01:07", "00:01:06", "00:01:05", "00:01:04", "00:01:03",
   "00:01:02", "00:01:01", "00:01:00", "00:00:59", "00:00:58", "00:00:57", "00:00:56",
   "00:00:55", "00:00:54", "00:00:53", "00:00:52", "00:00:51", "00:00:50", "00:00:49",
   "00:00:48", "00:00:47", "00:00:46", "00:00:45", "00:00:44", "00:00:43", "00:00:42",
   "00:00:41", "00:00:40", "00:00:39", "00:00:38", "00:00:37", "00:00:36", "00:00:35",
   "00:00:34", "00:00:33", "00:00:32", "00:00:31", "00:00:30", "00:00:29", "00:00:28",
   "00:00:27", "00:00:26", "00:00:25", "00:00:24", "00:00:23", "00:00:22", "00:00:21",
   "00:00:20", "00:00:19", "00:00:18", "00:00:17", "00:00:16", "00:00:15", "00:00:14",
   "00:00:13", "00:00:12", "00:00:11", "00:00:10", "00:00:09", "00:00:08", "00:00:07",
   "00:00:06", "00:00:05", "00:00:04", "00:00:03", "00:00:02", "00:00:01", "Expiré"]

/-- The texts `ticket_show.js` writes to its label in the 90-second example: `01m 29s`
down to `00m 00s`, then `Expiré`. -/
def showTexts : List String :=
  ["01m 29s", "01m 28s", "01m 27s", "01m 26s", "01m 25s", "01m 24s", "01m 23s", "01m 22s",
   "01m 21s", "01m 20s", "01m 19s", "01m 18s", "01m 17s", "01m 16s", "01m 15s", "01m 14s",
   "01m 13s", "01m 12s", "01m 11s", "01m 10s", "01m 09s", "01m 08s", "01m 07s", "01m 06s",
   "01m 05s", "01m 04s", "01m 03s", "01m 02s", "01m 01s", "01m 00s", "00m 59s", "00m 58s",
   "00m 57s", "00m 56s", "00m 55s", "00m 54s", "00m 53s", "00m 52s", "00m 51s", "00m 50s",
   "00m 49s", "00m 48s", "00m 47s", "00m 46s", "00m 45s", "00m 44s", "00m 43s", "00m 42s",
   "00m 41s", "00m 40s", "00m 39s", "00m 38s", "00m 37s", "00m 36s", "00m 35s", "00m 34s",
   "00m 33s", "00m 32s", "00m 31s", "00m 30s", "00m 29s", "00m 28s", "00m 27s", "00m 26s",
   "00m 25s", "00m 24s", "00m 23s", "00m 22s", "00m 21s", "00m 20s", "00m 19s", "00m 18s",
   "00m 17s", "00m 16s", "00m 15s", "00m 14s", "00m 13s", "00m 12s", "00m 11s", "00m 10s",
   "00m 09s", "00m 08s", "00m 07s", "00m 06s", "00m 05s", "00m 04s", "00m 03s", "00m 02s",
   "00m 01s", "00m 00s", "Expiré"]

end Example

namespace Paiements

/-- Position of a step in the payment sequence. -/
def Call.step : Call → Nat
  | .createIntent _ _ _ => 0
  | .confirm _ _ => 1
  | .finalize _ _ _ => 2

/-- Exceptions thrown by a `fetch` and by reading the body of its response. -/
def thrownBy : Except JsError Response → List JsError
  | .error e => [e]
  | .ok resp =>
    match resp.text with
    | .error e => [e]
    | .ok _ => []

/-- Exceptions the awaited calls of `env` throw. -/
def PayEnv.thrown (env : PayEnv) : List JsError :=
  thrownBy env.createIntent ++
    (match env.confirm with
      | .error e => [e]
      | .ok _ => []) ++
    thrownBy env.finalize

/-- The payment sequence has a failing outcome: `fetch` or `resp.text()` throws, the
response of create-payment-intent is not OK or its body is not JSON, `client_secret` is
missing, `stripe.confirmCardPayment` throws or returns an error, or, the payment having
succeeded, the request to after-payment throws or its response is not OK. -/
def PayEnv.failing (P : Platform) (env : PayEnv) : Bool :=
  match env.createIntent with
  | .error _ => true
  | .ok resp =>
    match resp.text with
    | .error _ => true
    | .ok txt =>
      !resp.ok
      || (P.jsonParse txt).isNone
      || !truthy ((P.jsonParse txt).getD (.object none none none)).clientSecret
      || (match env.confirm with
          | .error _ => true
          | .ok r =>
            r.error.isSome
            || (match r.paymentIntent with
                | none => false
                | some pi =>
                  pi.status == "succeeded" &&
                    (match env.finalize with
                      | .error _ => true
                      | .ok fin => !fin.ok)))

/-- Form values and outcomes of a click whose card is declined by Stripe. -/
def declinedEnv : PayEnv :=
  { typeValue := some "day", qtyValue := some "2", nameValue := some " Ada ",
    createIntent := .ok { ok := true, text := .ok "secret" },
    confirm := .ok { error := some { message := some "Your card was declined." },
                     paymentIntent := none },
    finalize := .ok { ok := true, text := .ok "" } }

/-- The payment form before a click. -/
def readyUi : Ui :=
  { payBtn := some { disabled := false, innerText := "Payer" }, errBox := some "",
    alerts := [], href := none, calls := [] }

end Paiements

/-! ## Events of the browser -/

namespace TicketTimer

/-- What the browser does next for a countdown of `ticket_timer.js`: the interval elapses
while `Date.now()` reads `now`, or the document changes and the observer callback is
delivered, `contained` being `document.body.contains(el)` after the change
(`mutation false`: the element is no longer in the document). -/
inductive Event where
  | fire (now : Int)
  | mutation (contained : Bool)
deriving DecidableEq, Repr

/-- One event on a countdown of `ticket_timer.js`. -/
def step (c : Countdown) : Event → Countdown
  | .fire now => fire now c
  | .mutation contained => mutation contained c

/-- A sequence of events, oldest first. -/
def steps (c : Countdown) (es : List Event) : Countdown :=
  es.foldl step c

end TicketTimer

namespace TicketShow

/-- What the browser does next for the countdown of `ticket_show.js`: the interval
elapses, or the document changes, `contained` telling whether the label is still in the
document after the change. -/
inductive Event where
  | fire
  | mutation (contained : Bool)
deriving DecidableEq, Repr

/-- One event on the countdown of `ticket_show.js`. The script creates no observer and
registers no listener for changes of the document, so such a change runs none of its
code; `label` and `bar` keep referring to the elements found by the ready callback. -/
def step (s : Show) : Event → Show
  | .fire => fire s
  | .mutation _ => s

/-- A sequence of events, oldest first. -/
def steps (s : Show) (es : List Event) : Show :=
  es.foldl step s

end TicketShow

namespace Example

/-- A running countdown of `ticket_timer.js` that expires at `expiresAtMs` on the server
clock, whose element carries classes from earlier ticks. -/
def running (expiresAtMs : Int) (classList : List String) : TicketTimer.Countdown :=
  { el := { textContent := "", classList := classList, attributes := [] },
    expiresAtMs := expiresAtMs, offsetMs := 0, opts := none, timerId := some 1,
    interval := true, observing := true, reloads := [], writes := [], ticks := 1 }

/-- Expiry of the 90-second example on the server clock. -/
def expiry : Int := t0 + 90000

/-- Reading of a client clock that is 5 s ahead of the server at initialization. -/
def clock0 : Int := t0 + 5000

/-- Readings of that client clock at the first two firings of the interval. -/
def firings : List Int := [t0 + 6000, t0 + 7000]

/-- Reading of that client clock 3 s after initialization. -/
def clock3 : Int := t0 + 8000

/-- One hour, in milliseconds. -/
def hour : Int := 3600000

/-- Form values of a click with a type that is not a key of `PRICES`, and quantity 2. -/
def yearEnv : Paiements.PayEnv :=
  { typeValue := some "year", qtyValue := some "2", nameValue := none,
    createIntent := .ok { ok := false, text := .ok "" },
    confirm := .ok { error := none, paymentIntent := none },
    finalize := .ok { ok := true, text := .ok "" } }

end Example

/-! # Theorems -/

namespace TicketTimer

/-! ## Decimal digits -/

theorem digitChar_isDigit (k : Nat) (h : k < 10) : (Nat.digitChar k).isDigit = true := by
  interval_cases k <;> rfl

theorem digitChar_value (k : Nat) (h : k < 10) : (Nat.digitChar k).toNat - 48 = k := by
  interval_cases k <;> rfl

theorem pad_eq_twoDigits (k : Nat) (h : k < 100) : pad (k : Int) = twoDigits k := by
  interval_cases k <;> rfl


/-- Closed form of `formatDuration` on a positive duration of `n` milliseconds. -/
theorem formatDuration_pos (n : Nat) (h : 0 < n) :
    formatDuration (n : Int) =
      if 86400000 ≤ n then
        toString (n / 86400000) ++ "j " ++ twoDigits (n / 1000 % 86400 / 3600) ++ ":" ++
          twoDigits (n / 1000 % 3600 / 60) ++ ":" ++ twoDigits (n / 1000 % 60)
      else
        twoDigits (n / 1000 % 86400 / 3600) ++ ":" ++
          twoDigits (n / 1000 % 3600 / 60) ++ ":" ++ twoDigits (n / 1000 % 60) := by
  have hn : ¬ ((n : Int) ≤ 0) := by omega
  have e1 : ((n : Int) / 1000) = ((n / 1000 : Nat) : Int) := by norm_cast
  have hH : n / 1000 % 86400 / 3600 < 100 := by omega
  have hM : n / 1000 % 3600 / 60 < 100 := by omega
  have hS : n / 1000 % 60 < 100 := by omega
  unfold formatDuration
  simp only [hn, if_false, e1]
  have e2 : Int.tmod ((n / 1000 : Nat) : Int) 86400 / 3600 = ((n / 1000 % 86400 / 3600 : Nat) : Int) := by
    rw [Int.tmod_eq_emod (by omega) (by norm_num)]; norm_cast
  have e3 : Int.tmod ((n / 1000 : Nat) : Int) 3600 / 60 = ((n / 1000 % 3600 / 60 : Nat) : Int) := by
    rw [Int.tmod_eq_emod (by omega) (by norm_num)]; norm_cast
  have e4 : Int.tmod ((n / 1000 : Nat) : Int) 60 = ((n / 1000 % 60 : Nat) : Int) := by
    rw [Int.tmod_eq_emod (by omega) (by norm_num)]; norm_cast
  have e5 : ((n / 1000 : Nat) : Int) / 86400 = ((n / 86400000 : Nat) : Int) := by
    rw [show (86400000 : Nat) = 1000 * 86400 by norm_num, ← Nat.div_div_eq_div_mul]; norm_cast
  rw [e2, e3, e4, e5, pad_eq_twoDigits _ hH, pad_eq_twoDigits _ hM, pad_eq_twoDigits _ hS]
  by_cases hd : 86400000 ≤ n
  · have : ((n / 86400000 : Nat) : Int) > 0 := by
      have : 0 < n / 86400000 := Nat.div_pos hd (by norm_num)
      exact_mod_cast this
    simp only [this, hd, if_true]
    rfl
  · have : ¬ (((n / 86400000 : Nat) : Int) > 0) := by
      have : n / 86400000 = 0 := Nat.div_eq_of_lt (by omega)
      simp [this]
    simp only [this, hd, if_false]

end TicketTimer

namespace TicketTimer

/-- C2. For every safe integer `ms` (`|ms| < 2 ^ 53`, the range in which the divisions of
the code are exact), with `t = floor(ms / 1000)`: the hours `t mod 86400 div 3600` lie in
`0..23`, the minutes `t mod 3600 div 60` and the seconds `t mod 60` in `0..59`, and
`formatDuration ms` is `"00:00:00"` when `ms <= 0`, the decimal rendering of
`floor(ms / 86400000)` followed by `"j "` and the two-digit `HH:MM:SS` when `ms` is at
least one day, and the two-digit `HH:MM:SS` alone otherwise. -/
theorem formatDuration_layout (ms : Int) (_hsafe : safeInteger ms) :
    (ms / 1000).toNat % 86400 / 3600 < 24 ∧
    (ms / 1000).toNat % 3600 / 60 < 60 ∧
    (ms / 1000).toNat % 60 < 60 ∧
    formatDuration ms =
      if ms ≤ 0 then "00:00:00"
      else if 86400000 ≤ ms then
        toString (ms / 86400000).toNat ++ "j " ++ hmsText (ms / 1000).toNat
      else hmsText (ms / 1000).toNat := by
  refine ⟨by omega, by omega, by omega, ?_⟩
  by_cases h0 : ms ≤ 0
  · simp [formatDuration, h0]
  · obtain ⟨n, rfl⟩ := Int.eq_ofNat_of_zero_le (show 0 ≤ ms by omega)
    have hn : 0 < n := by omega
    have ht : ((n : Int) / 1000).toNat = n / 1000 := by norm_cast
    have hd : ((n : Int) / 86400000).toNat = n / 86400000 := by norm_cast
    rw [formatDuration_pos n hn, if_neg h0, hd, ht]
    have hc : ((86400000 : Int) ≤ (n : Int)) ↔ 86400000 ≤ n := by omega
    simp only [hc, hmsText, String.append_assoc]

theorem formatDuration_layout_witness :
    safeInteger 90061001 ∧
    ((90061001 / 1000 : Int).toNat % 86400 / 3600 < 24 ∧
      (90061001 / 1000 : Int).toNat % 3600 / 60 < 60 ∧
      (90061001 / 1000 : Int).toNat % 60 < 60 ∧
      formatDuration 90061001 =
        if (90061001 : Int) ≤ 0 then "00:00:00"
        else if (86400000 : Int) ≤ 90061001 then
          toString (90061001 / 86400000 : Int).toNat ++ "j " ++
            hmsText (90061001 / 1000 : Int).toNat
        else hmsText (90061001 / 1000 : Int).toNat) :=
  ⟨by decide, formatDuration_layout 90061001 (by decide)⟩

/-! ## Rendering and reading decimal numbers -/

theorem toDigitsCore_all_digits (fuel : Nat) : ∀ (n : Nat) (ds : List Char),
    (∀ c ∈ ds, c.isDigit = true) → ∀ c ∈ Nat.toDigitsCore 10 fuel n ds, c.isDigit = true := by
  induction fuel with
  | zero => intro n ds hds; simpa [Nat.toDigitsCore] using hds
  | succ fuel ih =>
    intro n ds hds
    have hd : (Nat.digitChar (n % 10)).isDigit = true := digitChar_isDigit _ (by omega)
    have hds2 : ∀ c ∈ Nat.digitChar (n % 10) :: ds, c.isDigit = true := by
      intro c hc
      rcases List.mem_cons.mp hc with h | h
      · rw [h]; exact hd
      · exact hds c h
    unfold Nat.toDigitsCore
    by_cases h : n / 10 = 0
    · simpa [h] using hds2
    · simp only [h, if_false]
      exact ih _ _ hds2

theorem toDigitsCore_value (fuel : Nat) : ∀ (n : Nat) (ds : List Char), n < fuel →
    (Nat.toDigitsCore 10 fuel n ds).foldl (fun a c => a * 10 + (c.toNat - 48)) 0 =
      ds.foldl (fun a c => a * 10 + (c.toNat - 48)) n := by
  induction fuel with
  | zero => intro n ds h; omega
  | succ fuel ih =>
    intro n ds hlt
    unfold Nat.toDigitsCore
    by_cases h : n / 10 = 0
    · simp only [h, if_true, List.foldl_cons, digitChar_value _ (Nat.mod_lt n (by norm_num))]
      congr 1
      omega
    · simp only [h, if_false]
      rw [ih (n / 10) _ (by omega)]
      simp only [List.foldl_cons, digitChar_value _ (Nat.mod_lt n (by norm_num))]
      congr 1
      omega

theorem repr_all_digits (n : Nat) : ∀ c ∈ (toString n).toList, c.isDigit = true := by
  show ∀ c ∈ Nat.toDigitsCore 10 (n + 1) n [], c.isDigit = true
  exact toDigitsCore_all_digits _ _ _ (by simp)

theorem repr_value (n : Nat) : digitsValue (toString n).toList = n := by
  show (Nat.toDigitsCore 10 (n + 1) n []).foldl _ 0 = n
  rw [toDigitsCore_value _ _ _ (by omega)]
  rfl

theorem repr_ne_nil (n : Nat) : (toString n).toList ≠ [] := by
  show Nat.toDigitsCore 10 (n + 1) n [] ≠ []
  unfold Nat.toDigitsCore
  by_cases h : n / 10 = 0
  · simp [h]
  · simp only [h, if_false]
    intro hnil
    have hl := Nat.toDigitsCore_lens_eq 10 n (n / 10) (Nat.digitChar (n % 10)) []
    rw [hnil] at hl
    simp at hl

end TicketTimer

namespace TicketTimer

theorem takeWhile_digits_append (l r : List Char) (hl : ∀ c ∈ l, c.isDigit = true)
    (hr : r.head?.all (fun c => !c.isDigit) = true) :
    (l ++ r).takeWhile Char.isDigit = l ∧ (l ++ r).dropWhile Char.isDigit = r := by
  induction l with
  | nil =>
    cases r with
    | nil => simp
    | cons c r =>
      have : c.isDigit = false := by simpa using hr
      simp [List.takeWhile, List.dropWhile, this]
  | cons a l ih =>
    have ha : a.isDigit = true := hl a (by simp)
    have := ih (fun c hc => hl c (by simp [hc]))
    simp [List.takeWhile, List.dropWhile, ha, this.1, this.2]

theorem twoDigits_toList (k : Nat) :
    (twoDigits k).toList = [Nat.digitChar (k / 10), Nat.digitChar (k % 10)] := rfl

theorem digitsValue_pair (a b : Nat) (ha : a < 10) (hb : b < 10) :
    digitsValue [Nat.digitChar a, Nat.digitChar b] = a * 10 + b := by
  simp [digitsValue, digitChar_value _ ha, digitChar_value _ hb]

/-- Reading back the two-digit text `HH:MM:SS`. -/
theorem parseHMS_twoDigits (h m s : Nat) (hh : h < 100) (hm : m < 100) (hs : s < 100) :
    parseHMS ((twoDigits h ++ ":" ++ twoDigits m ++ ":" ++ twoDigits s).toList) =
      some (h * 3600 + m * 60 + s) := by
  have e : (twoDigits h ++ ":" ++ twoDigits m ++ ":" ++ twoDigits s).toList =
      [Nat.digitChar (h / 10), Nat.digitChar (h % 10), ':', Nat.digitChar (m / 10),
        Nat.digitChar (m % 10), ':', Nat.digitChar (s / 10), Nat.digitChar (s % 10)] := by
    simp [String.toList, String.data_append, twoDigits]
  rw [e]
  have d1 := digitChar_isDigit (h / 10) (by omega)
  have d2 := digitChar_isDigit (h % 10) (by omega)
  have d3 := digitChar_isDigit (m / 10) (by omega)
  have d4 := digitChar_isDigit (m % 10) (by omega)
  have d5 := digitChar_isDigit (s / 10) (by omega)
  have d6 := digitChar_isDigit (s % 10) (by omega)
  simp only [parseHMS, List.all_cons, List.all_nil, d1, d2, d3, d4, d5, d6, Bool.and_self,
    if_true]
  rw [digitsValue_pair _ _ (by omega) (by omega), digitsValue_pair _ _ (by omega) (by omega),
    digitsValue_pair _ _ (by omega) (by omega)]
  simp only [Option.some.injEq]
  omega

/-- Reading back the text of a duration of `n` milliseconds gives its whole seconds. -/
theorem parseDuration_formatDuration (n : Nat) (h : 0 < n) :
    parseDuration (formatDuration (n : Int)) = some ((n / 1000 * 1000 : Nat) : Int) := by
  rw [formatDuration_pos n h]
  have hH : n / 1000 % 86400 / 3600 < 100 := by omega
  have hM : n / 1000 % 3600 / 60 < 100 := by omega
  have hS : n / 1000 % 60 < 100 := by omega
  have hp := parseHMS_twoDigits _ _ _ hH hM hS
  by_cases hd : 86400000 ≤ n
  · simp only [hd, if_true]
    have hcs : (toString (n / 86400000) ++ "j " ++ twoDigits (n / 1000 % 86400 / 3600) ++ ":" ++
        twoDigits (n / 1000 % 3600 / 60) ++ ":" ++ twoDigits (n / 1000 % 60)).toList =
        (toString (n / 86400000)).toList ++ ('j' :: ' ' ::
          (twoDigits (n / 1000 % 86400 / 3600) ++ ":" ++
            twoDigits (n / 1000 % 3600 / 60) ++ ":" ++ twoDigits (n / 1000 % 60)).toList) := by
      simp [String.toList, String.data_append]
    have hsplit := takeWhile_digits_append (toString (n / 86400000)).toList
      ('j' :: ' ' :: (twoDigits (n / 1000 % 86400 / 3600) ++ ":" ++
        twoDigits (n / 1000 % 3600 / 60) ++ ":" ++ twoDigits (n / 1000 % 60)).toList)
      (repr_all_digits _) rfl
    have hne : (toString (n / 86400000)).toList.isEmpty = false := by
      have := repr_ne_nil (n / 86400000)
      cases hl : (toString (n / 86400000)).toList with
      | nil => exact absurd hl this
      | cons a l => rfl
    unfold parseDuration
    simp only [hcs, hsplit.1, hsplit.2, hne, hp, repr_value, Option.map_some', Bool.false_eq_true,
      if_false, Option.some.injEq]
    have e5 : n / 86400000 = n / 1000 / 86400 := by
      rw [Nat.div_div_eq_div_mul]
    rw [e5]
    refine congrArg (fun k : Nat => (k : Int)) ?_
    omega
  · simp only [hd, if_false]
    have hcs : (twoDigits (n / 1000 % 86400 / 3600) ++ ":" ++
        twoDigits (n / 1000 % 3600 / 60) ++ ":" ++ twoDigits (n / 1000 % 60)).toList =
        [Nat.digitChar (n / 1000 % 86400 / 3600 / 10),
          Nat.digitChar (n / 1000 % 86400 / 3600 % 10)] ++ (':' ::
          (twoDigits (n / 1000 % 3600 / 60) ++ ":" ++ twoDigits (n / 1000 % 60)).toList) := by
      simp [String.toList, String.data_append, twoDigits]
    have hsplit := takeWhile_digits_append
      [Nat.digitChar (n / 1000 % 86400 / 3600 / 10),
        Nat.digitChar (n / 1000 % 86400 / 3600 % 10)]
      (':' :: (twoDigits (n / 1000 % 3600 / 60) ++ ":" ++ twoDigits (n / 1000 % 60)).toList)
      (by
        intro c hc
        simp only [List.mem_cons, List.mem_singleton, List.not_mem_nil, or_false] at hc
        rcases hc with rfl | rfl
        · exact digitChar_isDigit _ (by omega)
        · exact digitChar_isDigit _ (by omega))
      rfl
    unfold parseDuration
    simp only []
    rw [← hcs] at hsplit
    rw [hsplit.2, hp]
    simp only [Option.map_some']
    show some _ = some _
    simp only [Option.some.injEq]
    refine congrArg (fun k : Nat => (k : Int)) ?_
    omega

/-- Reading back a text and formatting again, for a duration of `n` milliseconds. -/
theorem formatDuration_whole_seconds (n : Nat) :
    formatDuration ((n / 1000 * 1000 : Nat) : Int) = formatDuration (n : Int) := by
  by_cases h : n < 1000
  · have h0 : n / 1000 = 0 := Nat.div_eq_of_lt h
    rw [h0]
    by_cases hn : n = 0
    · subst hn; rfl
    · rw [formatDuration_pos n (by omega)]
      have : ¬ (86400000 ≤ n) := by omega
      simp only [this, if_false, h0]
      rfl
  · have hpos : 0 < n / 1000 * 1000 := by omega
    rw [formatDuration_pos n (by omega), formatDuration_pos _ hpos]
    have e1 : n / 1000 * 1000 / 1000 = n / 1000 := by omega
    have e2 : n / 1000 * 1000 / 86400000 = n / 86400000 := by omega
    have e3 : (86400000 ≤ n / 1000 * 1000) ↔ 86400000 ≤ n := by omega
    simp only [e1, e2, e3]

/-- C3. For every safe integer `ms >= 0` (`ms < 2 ^ 53`, the range in which the divisions
of the code are exact), the text `formatDuration ms` reads back as a duration `p` (its
days, hours, minutes and seconds, in milliseconds: the whole seconds of `ms`, again a
safe integer), and formatting `p` gives the same text again. -/
theorem formatDuration_reformat (ms : Int) (h : 0 ≤ ms) (hsafe : safeInteger ms) :
    parseDuration (formatDuration ms) = some (ms / 1000 * 1000) ∧
      safeInteger (ms / 1000 * 1000) ∧
      formatDuration (ms / 1000 * 1000) = formatDuration ms := by
  have hs : safeInteger (ms / 1000 * 1000) := by
    unfold safeInteger at hsafe ⊢
    omega
  obtain ⟨n, rfl⟩ := Int.eq_ofNat_of_zero_le h
  have e : ((n : Int) / 1000 * 1000) = ((n / 1000 * 1000 : Nat) : Int) := by norm_cast
  rw [e] at hs ⊢
  refine ⟨?_, hs, formatDuration_whole_seconds n⟩
  by_cases hn : n = 0
  · subst hn; decide
  · exact parseDuration_formatDuration n (by omega)

theorem formatDuration_reformat_witness :
    ((0 : Int) ≤ 90061001 ∧ safeInteger 90061001) ∧
      (parseDuration (formatDuration 90061001) = some (90061001 / 1000 * 1000) ∧
        safeInteger (90061001 / 1000 * 1000) ∧
        formatDuration (90061001 / 1000 * 1000) = formatDuration 90061001) :=
  ⟨⟨by decide, by decide⟩, formatDuration_reformat 90061001 (by decide) (by decide)⟩

end TicketTimer

namespace TicketTimer

/-! ## The countdown of `ticket_timer.js` -/

theorem tick_shift (d now : Int) (c : Countdown) :
    tick (now + d) { c with offsetMs := c.offsetMs - d } =
      { tick now c with offsetMs := c.offsetMs - d } := by
  have e : remaining c.expiresAtMs (c.offsetMs - d) (now + d) =
      remaining c.expiresAtMs c.offsetMs now := by
    simp only [remaining]; ring
  simp only [tick, e]
  split <;> rfl

theorem fire_shift (d now : Int) (c : Countdown) :
    fire (now + d) { c with offsetMs := c.offsetMs - d } =
      { fire now c with offsetMs := c.offsetMs - d } := by
  unfold fire
  by_cases h : c.interval = true
  · simp only [h, if_true]
    have := tick_shift d now c
    simpa [h] using this
  · simp [h]

theorem run_shift (d : Int) (nows : List Int) : ∀ c : Countdown,
    run { c with offsetMs := c.offsetMs - d } (nows.map (fun t => t + d)) =
      { run c nows with offsetMs := (run c nows).offsetMs - d } := by
  induction nows with
  | nil => intro c; rfl
  | cons now nows ih =>
    intro c
    have hoff : (fire now c).offsetMs = c.offsetMs := by
      unfold fire tick
      simp only []
      split
      · split <;> rfl
      · rfl
    simp only [run, List.map_cons, List.foldl_cons] at ih ⊢
    rw [fire_shift, ← hoff]
    exact ih (fire now c)

theorem run_idle (el : Element) (opts : Option Opts) (nows : List Int) :
    run (Countdown.idle el opts) nows = Countdown.idle el opts := by
  induction nows with
  | nil => rfl
  | cons now nows ih => simpa [run, fire, Countdown.idle] using ih

theorem initCountdown_cases (P : Platform) (el : Element) (opts : Option Opts)
    (now0 now1 : Int) :
    initCountdown P el opts now0 now1 = Countdown.idle el opts ∨
      ∃ expiresAtMs serverNowMs,
        P.dateParse ((el.getAttribute "data-expires-at").getD "") = some expiresAtMs ∧
        P.dateParse ((el.getAttribute "data-server-now").getD "") = some serverNowMs ∧
        initCountdown P el opts now0 now1 =
          { tick now1 { el := el, expiresAtMs := expiresAtMs, offsetMs := serverNowMs - now0,
                        opts := opts, timerId := none, interval := false, observing := false,
                        reloads := [], writes := [], ticks := 0 } with
            timerId := some 1, interval := true, observing := true } := by
  unfold initCountdown
  simp only []
  split
  · exact Or.inl rfl
  · split
    · rename_i e s he hs
      exact Or.inr ⟨e, s, he, hs, rfl⟩
    · exact Or.inl rfl

theorem tick_offsetMs (now : Int) (c : Countdown) : (tick now c).offsetMs = c.offsetMs := by
  unfold tick
  simp only []
  split <;> rfl

theorem run_offsetMs (nows : List Int) : ∀ c : Countdown,
    (run c nows).offsetMs = c.offsetMs := by
  induction nows with
  | nil => intro c; rfl
  | cons now nows ih =>
    intro c
    have hoff : (fire now c).offsetMs = c.offsetMs := by
      unfold fire
      split
      · exact tick_offsetMs now c
      · rfl
    simp only [run, List.foldl_cons] at ih ⊢
    rw [ih, hoff]

theorem initCountdown_shift (P : Platform) (el : Element) (opts : Option Opts)
    (now0 now1 d : Int) :
    (initCountdown P el opts now0 now1 = Countdown.idle el opts ∧
      initCountdown P el opts (now0 + d) (now1 + d) = Countdown.idle el opts) ∨
    initCountdown P el opts (now0 + d) (now1 + d) =
      { initCountdown P el opts now0 now1 with
        offsetMs := (initCountdown P el opts now0 now1).offsetMs - d } := by
  unfold initCountdown
  simp only []
  split
  · exact Or.inl ⟨rfl, rfl⟩
  · split
    · rename_i e s he hs
      right
      have e1 : s - (now0 + d) = (s - now0) - d := by ring
      rw [e1]
      have := tick_shift d now1
        { el := el, expiresAtMs := e, offsetMs := s - now0, opts := opts, timerId := none,
          interval := false, observing := false, reloads := [], writes := [], ticks := 0 }
      simp only [] at this
      rw [this]
      simp only [tick_offsetMs]
    · exact Or.inl ⟨rfl, rfl⟩

theorem initCountdown_started (P : Platform) (el : Element) (opts : Option Opts)
    (expiresAtMs serverNowMs now0 now1 : Int)
    (hexp : truthy (el.getAttribute "data-expires-at") = true)
    (hsrv : truthy (el.getAttribute "data-server-now") = true)
    (he : P.dateParse ((el.getAttribute "data-expires-at").getD "") = some expiresAtMs)
    (hs : P.dateParse ((el.getAttribute "data-server-now").getD "") = some serverNowMs) :
    initCountdown P el opts now0 now1 =
      { tick now1 { el := el, expiresAtMs := expiresAtMs, offsetMs := serverNowMs - now0,
                    opts := opts, timerId := none, interval := false, observing := false,
                    reloads := [], writes := [], ticks := 0 } with
        timerId := some 1, interval := true, observing := true } := by
  unfold initCountdown
  simp only [hexp, hsrv, he, hs, Bool.not_true, Bool.or_self, Bool.false_eq_true, if_false]

theorem tick_expiresAtMs (now : Int) (c : Countdown) :
    (tick now c).expiresAtMs = c.expiresAtMs := by
  unfold tick
  simp only []
  split <;> rfl

theorem run_expiresAtMs (nows : List Int) : ∀ c : Countdown,
    (run c nows).expiresAtMs = c.expiresAtMs := by
  induction nows with
  | nil => intro c; rfl
  | cons now nows ih =>
    intro c
    have hexp : (fire now c).expiresAtMs = c.expiresAtMs := by
      unfold fire
      split
      · exact tick_expiresAtMs now c
      · rfl
    simp only [run, List.foldl_cons] at ih ⊢
    rw [ih, hexp]

/-- The text a tick leaves in the element is the rendering of the `remaining` it
computes: "Expiré" when `remaining <= 0`, `formatDuration remaining` otherwise. -/
theorem tick_textContent (now : Int) (c : Countdown) :
    (tick now c).el.textContent =
      if remaining c.expiresAtMs c.offsetMs now ≤ 0 then "Expiré"
      else formatDuration (remaining c.expiresAtMs c.offsetMs now) := by
  unfold tick
  simp only []
  by_cases h : remaining c.expiresAtMs c.offsetMs now ≤ 0
  · simp only [h, if_true, tickWrites]
    rfl
  · simp only [h, if_false, tickWrites]
    split <;> rfl

/-- A tick writes exactly one text: the rendering of the `remaining` it computes. -/
theorem tick_displayed (now : Int) (c : Countdown) :
    displayed (tick now c) =
      displayed c ++
        [if remaining c.expiresAtMs c.offsetMs now ≤ 0 then "Expiré"
          else formatDuration (remaining c.expiresAtMs c.offsetMs now)] := by
  have hw : (tick now c).writes =
      c.writes ++ tickWrites (remaining c.expiresAtMs c.offsetMs now) := by
    unfold tick
    simp only []
    split <;> rfl
  unfold displayed
  rw [hw, List.filterMap_append]
  congr 1
  unfold tickWrites
  by_cases h : remaining c.expiresAtMs c.offsetMs now ≤ 0
  · simp only [h, if_true]
    rfl
  · simp only [h, if_false]
    split <;> rfl

/-- C1. For a countdown whose timestamps parse, all time values being less than `2 ^ 51` ms
from the epoch (where the arithmetic of the code is exact): `initCountdown` fixes the
offset `serverNow - localNowAtInit` once and no firing changes it; the first tick, and a
tick in any state the firings reach, computes
`remaining = (expiresAt - serverNow) - (localNow - localNowAtInit)` and renders it
("Expiré" when it is `<= 0`, `formatDuration remaining` otherwise) as the one text it
writes, that `remaining` being a safe integer (the range in which `formatDuration` is
exact); consequently, when the same `d` is added to every reading of the client clock
(the two readings of `initCountdown` and the reading of every firing and tick), the
element, the writes made to it (so every text rendered), the scheduled reloads, the
timer and the number of ticks are the same as with `d = 0`. -/
theorem countdown_clock_shift (P : Platform) (el : Element) (opts : Option Opts)
    (expiresAtMs serverNowMs now0 now1 now d : Int) (nows : List Int)
    (hexp : truthy (el.getAttribute "data-expires-at") = true)
    (hsrv : truthy (el.getAttribute "data-server-now") = true)
    (he : P.dateParse ((el.getAttribute "data-expires-at").getD "") = some expiresAtMs)
    (hs : P.dateParse ((el.getAttribute "data-server-now").getD "") = some serverNowMs)
    (hsafe : safeTime expiresAtMs ∧ safeTime serverNowMs)
    (hclock : ∀ t ∈ now0 :: now1 :: now :: nows, safeTime t ∧ safeTime (t + d)) :
    (initCountdown P el opts now0 now1).offsetMs = serverNowMs - now0 ∧
    (run (initCountdown P el opts now0 now1) nows).offsetMs = serverNowMs - now0 ∧
    (run (initCountdown P el opts now0 now1) nows).expiresAtMs = expiresAtMs ∧
    displayed (initCountdown P el opts now0 now1) =
      [if (expiresAtMs - serverNowMs) - (now1 - now0) ≤ 0 then "Expiré"
        else formatDuration ((expiresAtMs - serverNowMs) - (now1 - now0))] ∧
    remaining (run (initCountdown P el opts now0 now1) nows).expiresAtMs
        (run (initCountdown P el opts now0 now1) nows).offsetMs now =
      (expiresAtMs - serverNowMs) - (now - now0) ∧
    safeInteger ((expiresAtMs - serverNowMs) - (now1 - now0)) ∧
    safeInteger ((expiresAtMs - serverNowMs) - (now - now0)) ∧
    (tick now (run (initCountdown P el opts now0 now1) nows)).el.textContent =
      (if (expiresAtMs - serverNowMs) - (now - now0) ≤ 0 then "Expiré"
        else formatDuration ((expiresAtMs - serverNowMs) - (now - now0))) ∧
    displayed (tick now (run (initCountdown P el opts now0 now1) nows)) =
      displayed (run (initCountdown P el opts now0 now1) nows) ++
        [if (expiresAtMs - serverNowMs) - (now - now0) ≤ 0 then "Expiré"
          else formatDuration ((expiresAtMs - serverNowMs) - (now - now0))] ∧
    (tick (now + d)
        (run (initCountdown P el opts (now0 + d) (now1 + d))
          (nows.map (fun t => t + d)))).el =
      (tick now (run (initCountdown P el opts now0 now1) nows)).el ∧
    (tick (now + d)
        (run (initCountdown P el opts (now0 + d) (now1 + d))
          (nows.map (fun t => t + d)))).writes =
      (tick now (run (initCountdown P el opts now0 now1) nows)).writes ∧
    (run (initCountdown P el opts (now0 + d) (now1 + d))
          (nows.map (fun t => t + d))).el =
      (run (initCountdown P el opts now0 now1) nows).el ∧
    (run (initCountdown P el opts (now0 + d) (now1 + d))
          (nows.map (fun t => t + d))).writes =
      (run (initCountdown P el opts now0 now1) nows).writes ∧
    (run (initCountdown P el opts (now0 + d) (now1 + d))
          (nows.map (fun t => t + d))).reloads =
      (run (initCountdown P el opts now0 now1) nows).reloads ∧
    (run (initCountdown P el opts (now0 + d) (now1 + d))
          (nows.map (fun t => t + d))).interval =
      (run (initCountdown P el opts now0 now1) nows).interval ∧
    (run (initCountdown P el opts (now0 + d) (now1 + d))
          (nows.map (fun t => t + d))).ticks =
      (run (initCountdown P el opts now0 now1) nows).ticks := by
  have hinit := initCountdown_started P el opts expiresAtMs serverNowMs now0 now1
    hexp hsrv he hs
  have hoff0 : (initCountdown P el opts now0 now1).offsetMs = serverNowMs - now0 := by
    rw [hinit]
    show (tick now1 _).offsetMs = _
    rw [tick_offsetMs]
  have hexp0 : (initCountdown P el opts now0 now1).expiresAtMs = expiresAtMs := by
    rw [hinit]
    show (tick now1 _).expiresAtMs = _
    rw [tick_expiresAtMs]
  have hoff : (run (initCountdown P el opts now0 now1) nows).offsetMs = serverNowMs - now0 := by
    rw [run_offsetMs, hoff0]
  have hexpr : (run (initCountdown P el opts now0 now1) nows).expiresAtMs = expiresAtMs := by
    rw [run_expiresAtMs, hexp0]
  have hrem : ∀ t : Int, remaining expiresAtMs (serverNowMs - now0) t =
      (expiresAtMs - serverNowMs) - (t - now0) := by
    intro t
    simp only [remaining]
    ring
  have hshift : initCountdown P el opts (now0 + d) (now1 + d) =
      { initCountdown P el opts now0 now1 with
        offsetMs := (initCountdown P el opts now0 now1).offsetMs - d } := by
    rcases initCountdown_shift P el opts now0 now1 d with ⟨h1, _⟩ | h
    · have hi : (initCountdown P el opts now0 now1).interval = true := by
        rw [hinit]
      rw [h1] at hi
      cases hi
    · exact h
  have hrun : (run (initCountdown P el opts (now0 + d) (now1 + d))
          (nows.map (fun t => t + d))) =
      { (run (initCountdown P el opts now0 now1) nows) with
        offsetMs := (run (initCountdown P el opts now0 now1) nows).offsetMs - d } := by
    rw [hshift, run_shift]
  have htick : tick (now + d) (run (initCountdown P el opts (now0 + d) (now1 + d))
          (nows.map (fun t => t + d))) =
      { tick now (run (initCountdown P el opts now0 now1) nows) with
        offsetMs := (run (initCountdown P el opts now0 now1) nows).offsetMs - d } := by
    rw [hrun]
    exact tick_shift d now _
  have h0 := (hclock now0 (by simp)).1
  have h1 := (hclock now1 (by simp)).1
  have h2 := (hclock now (by simp)).1
  unfold safeTime at hsafe h0 h1 h2
  refine ⟨hoff0, hoff, hexpr, ?_, ?_, ?_, ?_, ?_, ?_, ?_, ?_, ?_, ?_, ?_, ?_, ?_⟩
  · rw [hinit]
    show displayed (tick now1 _) = _
    rw [tick_displayed]
    simp only [hrem]
    rfl
  · rw [hoff, hexpr, hrem]
  · unfold safeInteger
    omega
  · unfold safeInteger
    omega
  · rw [tick_textContent, hoff, hexpr, hrem]
  · rw [tick_displayed, hoff, hexpr, hrem]
  · rw [htick]
  · rw [htick]
  · rw [hrun]
  · rw [hrun]
  · rw [hrun]
  · rw [hrun]
  · rw [hrun]

theorem countdown_clock_shift_witness :
    (initCountdown Example.platform Example.ninetyEl none Example.clock0 Example.clock0).offsetMs =
      Example.t0 - Example.clock0 ∧
    (run (initCountdown Example.platform Example.ninetyEl none Example.clock0 Example.clock0)
          Example.firings).offsetMs = Example.t0 - Example.clock0 ∧
    (run (initCountdown Example.platform Example.ninetyEl none Example.clock0 Example.clock0)
          Example.firings).expiresAtMs = Example.expiry ∧
    displayed
        (initCountdown Example.platform Example.ninetyEl none Example.clock0 Example.clock0) =
      [if (Example.expiry - Example.t0) - (Example.clock0 - Example.clock0) ≤ 0 then "Expiré"
        else formatDuration ((Example.expiry - Example.t0) - (Example.clock0 - Example.clock0))] ∧
    remaining
        (run (initCountdown Example.platform Example.ninetyEl none Example.clock0 Example.clock0)
          Example.firings).expiresAtMs
        (run (initCountdown Example.platform Example.ninetyEl none Example.clock0 Example.clock0)
          Example.firings).offsetMs Example.clock3 =
      (Example.expiry - Example.t0) - (Example.clock3 - Example.clock0) ∧
    safeInteger ((Example.expiry - Example.t0) - (Example.clock0 - Example.clock0)) ∧
    safeInteger ((Example.expiry - Example.t0) - (Example.clock3 - Example.clock0)) ∧
    (tick Example.clock3
        (run (initCountdown Example.platform Example.ninetyEl none Example.clock0 Example.clock0)
          Example.firings)).el.textContent =
      (if (Example.expiry - Example.t0) - (Example.clock3 - Example.clock0) ≤ 0 then "Expiré"
        else formatDuration ((Example.expiry - Example.t0) - (Example.clock3 - Example.clock0))) ∧
    displayed (tick Example.clock3
        (run (initCountdown Example.platform Example.ninetyEl none Example.clock0 Example.clock0)
          Example.firings)) =
      displayed
          (run (initCountdown Example.platform Example.ninetyEl none Example.clock0
            Example.clock0) Example.firings) ++
        [if (Example.expiry - Example.t0) - (Example.clock3 - Example.clock0) ≤ 0 then "Expiré"
          else formatDuration
            ((Example.expiry - Example.t0) - (Example.clock3 - Example.clock0))] ∧
    (tick (Example.clock3 + Example.hour)
        (run (initCountdown Example.platform Example.ninetyEl none (Example.clock0 + Example.hour)
            (Example.clock0 + Example.hour))
          (Example.firings.map (fun t => t + Example.hour)))).el =
      (tick Example.clock3
        (run (initCountdown Example.platform Example.ninetyEl none Example.clock0 Example.clock0)
          Example.firings)).el ∧
    (tick (Example.clock3 + Example.hour)
        (run (initCountdown Example.platform Example.ninetyEl none (Example.clock0 + Example.hour)
            (Example.clock0 + Example.hour))
          (Example.firings.map (fun t => t + Example.hour)))).writes =
      (tick Example.clock3
        (run (initCountdown Example.platform Example.ninetyEl none Example.clock0 Example.clock0)
          Example.firings)).writes ∧
    (run (initCountdown Example.platform Example.ninetyEl none (Example.clock0 + Example.hour)
            (Example.clock0 + Example.hour))
          (Example.firings.map (fun t => t + Example.hour))).el =
      (run (initCountdown Example.platform Example.ninetyEl none Example.clock0 Example.clock0)
          Example.firings).el ∧
    (run (initCountdown Example.platform Example.ninetyEl none (Example.clock0 + Example.hour)
            (Example.clock0 + Example.hour))
          (Example.firings.map (fun t => t + Example.hour))).writes =
      (run (initCountdown Example.platform Example.ninetyEl none Example.clock0 Example.clock0)
          Example.firings).writes ∧
    (run (initCountdown Example.platform Example.ninetyEl none (Example.clock0 + Example.hour)
            (Example.clock0 + Example.hour))
          (Example.firings.map (fun t => t + Example.hour))).reloads =
      (run (initCountdown Example.platform Example.ninetyEl none Example.clock0 Example.clock0)
          Example.firings).reloads ∧
    (run (initCountdown Example.platform Example.ninetyEl none (Example.clock0 + Example.hour)
            (Example.clock0 + Example.hour))
          (Example.firings.map (fun t => t + Example.hour))).interval =
      (run (initCountdown Example.platform Example.ninetyEl none Example.clock0 Example.clock0)
          Example.firings).interval ∧
    (run (initCountdown Example.platform Example.ninetyEl none (Example.clock0 + Example.hour)
            (Example.clock0 + Example.hour))
          (Example.firings.map (fun t => t + Example.hour))).ticks =
      (run (initCountdown Example.platform Example.ninetyEl none Example.clock0 Example.clock0)
          Example.firings).ticks :=
  countdown_clock_shift Example.platform Example.ninetyEl none Example.expiry Example.t0
    Example.clock0 Example.clock0 Example.clock3 Example.hour Example.firings
    (by decide) (by decide) (by decide) (by decide) (by decide) (by decide)

end TicketTimer

namespace TicketTimer

/-- C4, at the failing input. A countdown whose `data-expires-at` equals its
`data-server-now` is expired at the first `tick()`, the one `initCountdown` calls before
`setInterval`: that tick renders "Expiré" while `timerId` is still `null`, so nothing is
cleared and the interval is started afterwards. One second later `tick` runs again
(a second execution, writing the element again) and only that one stops the timer. -/
theorem expired_at_init_ticks_again :
    (initCountdown Example.platform Example.expiredEl (some {}) Example.t0
        Example.t0).el.textContent = "Expiré" ∧
    (initCountdown Example.platform Example.expiredEl (some {}) Example.t0
        Example.t0).ticks = 1 ∧
    (initCountdown Example.platform Example.expiredEl (some {}) Example.t0
        Example.t0).interval = true ∧
    (run (initCountdown Example.platform Example.expiredEl (some {}) Example.t0 Example.t0)
        (Example.everySecond 1)).ticks = 2 ∧
    (run (initCountdown Example.platform Example.expiredEl (some {}) Example.t0 Example.t0)
        (Example.everySecond 1)).writes.length = 6 ∧
    (run (initCountdown Example.platform Example.expiredEl (some {}) Example.t0 Example.t0)
        (Example.everySecond 1)).interval = false := by
  decide

/-- A tick that runs once `timerId` is set and finds `remaining <= 0` renders "Expiré"
and clears the interval: no firing runs `tick` after it. -/
theorem tick_expired_stops_timer (c : Countdown) (now : Int) (id : Nat) (nows : List Int)
    (h : remaining c.expiresAtMs c.offsetMs now ≤ 0) :
    (tick now { c with timerId := some id }).el.textContent = "Expiré" ∧
    (tick now { c with timerId := some id }).interval = false ∧
    run (tick now { c with timerId := some id }) nows =
      tick now { c with timerId := some id } := by
  have hi : (tick now { c with timerId := some id }).interval = false := by
    unfold tick
    simp only [h, if_true, Option.isSome_some]
  refine ⟨?_, hi, ?_⟩
  · unfold tick
    simp only [h, if_true, tickWrites]
    rfl
  · induction nows with
    | nil => rfl
    | cons t ts ih =>
      simp only [run, List.foldl_cons, fire, hi, Bool.false_eq_true, if_false] at ih ⊢
      exact ih

end TicketTimer

namespace TicketShow

/-- C5, at the failing input. With `expiresAt = serverNow + 1000 ms` the first call of
`tick()`, made before `const timer` is initialized, finds `remaining = 0`: it writes
"00m 00s" to the label and the bar width, then reading `timer` throws a `ReferenceError`.
The label never shows "Expiré", no reload is scheduled and the interval is never
created. -/
theorem expired_in_first_tick_throws :
    (ready Example.platform Example.oneSecondPage Example.t0).error =
      some (Uncaught.referenceError "timer") ∧
    labelTexts (ready Example.platform Example.oneSecondPage Example.t0) = ["00m 00s"] ∧
    (ready Example.platform Example.oneSecondPage Example.t0).reloads = [] ∧
    (ready Example.platform Example.oneSecondPage Example.t0).timer = none ∧
    (ready Example.platform Example.oneSecondPage Example.t0).interval = false ∧
    (ready Example.platform Example.oneSecondPage Example.t0).ticks = 1 := by
  decide

/-- A tick that runs once `timer` is initialized and finds `remaining <= 0` sets the
label to "Expiré" (its last write when the label exists), clears the interval, schedules
one reload and throws nothing; no firing runs `tick` after it. -/
theorem tick_expired_stops (s : Show) (id n : Nat)
    (h : le0 (jsMax0 (jsSub s.expires (s.now.map (fun v => v + 1000)))) = true) :
    (tick { s with timer := some id }).interval = false ∧
    (tick { s with timer := some id }).reloads = s.reloads ++ [1200] ∧
    (tick { s with timer := some id }).error = s.error ∧
    (s.hasLabel = true →
      (labelTexts (tick { s with timer := some id })).getLast? = some "Expiré") ∧
    run (tick { s with timer := some id }) n = tick { s with timer := some id } := by
  have hi : (tick { s with timer := some id }).interval = false := by
    unfold tick
    simp only [h, if_true]
  refine ⟨hi, ?_, ?_, ?_, ?_⟩
  · unfold tick
    simp only [h, if_true]
  · unfold tick
    simp only [h, if_true]
  · intro hl
    unfold tick labelTexts
    simp only [h, if_true, hl, List.filterMap_append]
    simp only [List.filterMap_cons, List.filterMap_nil, ← List.append_assoc]
    exact List.getLast?_concat _
  · induction n with
    | zero => rfl
    | succ n ih => simp only [run, ih, fire, hi, Bool.false_eq_true, if_false]

/-- The function `tick` never changes `timer`. -/
theorem tick_timer (s : Show) : (tick s).timer = s.timer := by
  unfold tick
  simp only []
  split
  · split <;> rfl
  · rfl

theorem tick_interval_false (s : Show) (h : s.interval = false) :
    (tick s).interval = false := by
  unfold tick
  simp only []
  split
  · split
    · exact h
    · rfl
  · exact h

/-- Every tick fired by the interval runs with `timer` initialized. -/
theorem run_ready_timer (P : Platform) (page : Page) (localNow : Int) (n : Nat) :
    (run (ready P page localNow) n).interval = false ∨
      (run (ready P page localNow) n).timer = some 1 := by
  induction n with
  | zero =>
    show (ready P page localNow).interval = false ∨ (ready P page localNow).timer = some 1
    unfold ready
    cases hb : page.box with
    | none => exact Or.inl rfl
    | some box =>
      simp only []
      split_ifs <;>
        first
        | exact Or.inr rfl
        | exact Or.inl (tick_interval_false _ rfl)
        | exact Or.inl rfl
  | succ n ih =>
    show (fire (run (ready P page localNow) n)).interval = false ∨
      (fire (run (ready P page localNow) n)).timer = some 1
    unfold fire
    rcases ih with h | h
    · simp only [h, Bool.false_eq_true, if_false, true_or]
    · split
      · right; rw [tick_timer]; exact h
      · right; exact h

/-- C8, counterexample. The ticket page without `data-server-now`: the ready callback
of `ticket_show.js` falls back on the client clock, writes the label and the bar and
starts the timer. -/
theorem missing_server_now_still_starts :
    (ready Example.platform Example.noServerNowPage Example.t0).writes =
      [ShowWrite.labelText "01m 29s",
       ShowWrite.barWidth (Pct.round 1000 90000)] ∧
    (ready Example.platform Example.noServerNowPage Example.t0).interval = true := by
  decide

end TicketShow

namespace TicketTimer

/-- C6, counterexample. `TicketTimer.init` without options on an expired countdown: the
tick finds `remaining <= 0` and renders "Expiré", and no reload is scheduled. -/
theorem no_reload_without_option :
    remaining 1704067200000 (1704067200000 - Example.t0) Example.t0 ≤ 0 ∧
    (init Example.platform (some Example.expiredEl) none Example.t0 Example.t0).map
      (fun c => (c.el.textContent, c.ticks, c.reloads)) = some ("Expiré", 1, []) := by
  decide

/-- C6, amended. In `ticket_timer.js` the options reach `tick` as `options`, or as an
empty object when `options` is falsy, and are never changed, and a tick schedules a reload, after 800 ms, exactly when it finds
`remaining <= 0` and `autoReloadOnExpire` is truthy. In `ticket_show.js` a tick that runs
once `timer` is initialized schedules a reload, after 1200 ms, exactly when it finds
`remaining <= 0`; every tick fired by the interval is such a tick. -/
theorem reload_on_expiry (P : Platform) (el : Element) (options : Option Opts)
    (now0 now1 now : Int) (c : Countdown) (s : TicketShow.Show) (id : Nat)
    (page : TicketShow.Page) (localNow : Int) (n : Nat) :
    (init P (some el) options now0 now1).map (fun c => c.opts) =
      some (some (options.getD {})) ∧
    (tick now c).opts = c.opts ∧
    (tick now c).reloads =
      (if remaining c.expiresAtMs c.offsetMs now ≤ 0 ∧
          c.opts.map (fun o => o.autoReloadOnExpire) = some true
        then c.reloads ++ [800] else c.reloads) ∧
    (TicketShow.tick { s with timer := some id }).reloads =
      (if TicketShow.le0 (TicketShow.jsMax0
          (TicketShow.jsSub s.expires (s.now.map (fun v => v + 1000))))
        then s.reloads ++ [1200] else s.reloads) ∧
    ((TicketShow.run (TicketShow.ready P page localNow) n).interval = false ∨
      (TicketShow.run (TicketShow.ready P page localNow) n).timer = some 1) := by
  refine ⟨?_, ?_, ?_, ?_, TicketShow.run_ready_timer P page localNow n⟩
  · simp only [init, Option.map_some', Option.some.injEq]
    rcases initCountdown_cases P el (some (options.getD {})) now0 now1 with h | ⟨e, s, _, _, h⟩
    · rw [h]; rfl
    · rw [h]
      show (tick now1 _).opts = _
      unfold tick
      simp only []
      split <;> rfl
  · unfold tick
    simp only []
    split <;> rfl
  · unfold tick
    simp only []
    by_cases h : remaining c.expiresAtMs c.offsetMs now ≤ 0
    · simp only [h, if_true, true_and]
      cases ho : c.opts with
      | none => simp
      | some o => cases hb : o.autoReloadOnExpire <;> simp [hb]
    · simp only [h, if_false, false_and]
  · unfold TicketShow.tick
    simp only []
    split <;> rfl

end TicketTimer

namespace TicketTimer

set_option maxRecDepth 200000 in
/-- C7, counterexample. In the 90-second example (`serverNow = validatedAt`, expiry 90 s
later, first tick with no time elapsed, then one firing per second) the texts
`ticket_timer.js` displays are not the sequence of the specification: "00:00:00" is
never displayed. -/
theorem ninety_seconds_not_spec_texts :
    displayed (run (initCountdown Example.platform Example.ninetyEl (some {}) Example.t0
        Example.t0) (Example.everySecond 95)) ≠ Example.specTexts ∧
    "00:00:00" ∉ displayed (run (initCountdown Example.platform Example.ninetyEl (some {})
        Example.t0 Example.t0) (Example.everySecond 95)) := by
  decide

set_option maxRecDepth 200000 in
/-- C7, amended. In the 90-second example `ticket_timer.js` displays "00:01:30",
"00:01:29", ..., "00:00:01" and then "Expiré" (at the firing 90 s after initialization,
where `remaining = 0`), and nothing after it; `ticket_show.js` writes "01m 29s",
"01m 28s", ..., "00m 01s" to its label, then, in its 90th tick, "00m 00s" and at once
"Expiré", and nothing after it. -/
theorem ninety_seconds_texts :
    displayed (run (initCountdown Example.platform Example.ninetyEl (some {}) Example.t0
        Example.t0) (Example.everySecond 95)) = Example.timerTexts ∧
    TicketShow.labelTexts (TicketShow.run
        (TicketShow.ready Example.platform Example.ninetyPage Example.t0) 95) =
      Example.showTexts ∧
    (TicketShow.run (TicketShow.ready Example.platform Example.ninetyPage Example.t0)
        95).ticks = 90 := by
  decide

/-- C8, amended. `initCountdown` of `ticket_timer.js`: when `data-expires-at` or
`data-server-now` is missing (absent or empty) or does not parse, the element is left as
it was, nothing is written, no timer and no observer is started, and later firings find
nothing to run. The ready callback of `ticket_show.js`: when `data-expires-at` or
`data-validated-at` is missing, nothing is written, no timer is started and no error is
raised. -/
theorem invalid_timestamps_no_effect (P : Platform) (el : Element) (opts : Option Opts)
    (now0 now1 : Int) (nows : List Int) (page : TicketShow.Page) (box : TicketShow.Dataset)
    (localNow : Int) (n : Nat)
    (hel : truthy (el.getAttribute "data-expires-at") = false ∨
      truthy (el.getAttribute "data-server-now") = false ∨
      P.dateParse ((el.getAttribute "data-expires-at").getD "") = none ∨
      P.dateParse ((el.getAttribute "data-server-now").getD "") = none)
    (hbox : page.box = some box)
    (hpage : truthy box.expiresAt = false ∨ truthy box.validatedAt = false) :
    ((initCountdown P el opts now0 now1).el = el ∧
      (initCountdown P el opts now0 now1).writes = [] ∧
      (initCountdown P el opts now0 now1).interval = false ∧
      (initCountdown P el opts now0 now1).observing = false ∧
      (initCountdown P el opts now0 now1).reloads = [] ∧
      (initCountdown P el opts now0 now1).ticks = 0 ∧
      run (initCountdown P el opts now0 now1) nows = initCountdown P el opts now0 now1) ∧
    ((TicketShow.ready P page localNow).writes = [] ∧
      (TicketShow.ready P page localNow).interval = false ∧
      (TicketShow.ready P page localNow).reloads = [] ∧
      (TicketShow.ready P page localNow).error = none ∧
      (TicketShow.ready P page localNow).ticks = 0 ∧
      TicketShow.run (TicketShow.ready P page localNow) n =
        TicketShow.ready P page localNow) := by
  have h1 : initCountdown P el opts now0 now1 = Countdown.idle el opts := by
    rcases initCountdown_cases P el opts now0 now1 with h | ⟨e, s, he, hs, h⟩
    · exact h
    · unfold initCountdown
      simp only []
      rcases hel with h' | h' | h' | h'
      · simp [h']
      · simp [h']
      · rw [h'] at he; cases he
      · rw [h'] at hs; cases hs
  have h2 : TicketShow.ready P page localNow = TicketShow.Show.idle page := by
    unfold TicketShow.ready
    rw [hbox]
    rcases hpage with h' | h' <;> simp [h']
  have h3 : ∀ k, TicketShow.run (TicketShow.Show.idle page) k = TicketShow.Show.idle page := by
    intro k
    induction k with
    | zero => rfl
    | succ k ih => simp only [TicketShow.run, ih]; rfl
  rw [h1, h2, run_idle, h3]
  exact ⟨⟨rfl, rfl, rfl, rfl, rfl, rfl, rfl⟩, rfl, rfl, rfl, rfl, rfl, rfl⟩

theorem invalid_timestamps_no_effect_witness :
    ((initCountdown Example.platform Example.noServerNowEl none 0 0).el =
        Example.noServerNowEl ∧
      (initCountdown Example.platform Example.noServerNowEl none 0 0).writes = [] ∧
      (initCountdown Example.platform Example.noServerNowEl none 0 0).interval = false ∧
      (initCountdown Example.platform Example.noServerNowEl none 0 0).observing = false ∧
      (initCountdown Example.platform Example.noServerNowEl none 0 0).reloads = [] ∧
      (initCountdown Example.platform Example.noServerNowEl none 0 0).ticks = 0 ∧
      run (initCountdown Example.platform Example.noServerNowEl none 0 0) [1000, 2000] =
        initCountdown Example.platform Example.noServerNowEl none 0 0) ∧
    ((TicketShow.ready Example.platform Example.noExpiresPage 0).writes = [] ∧
      (TicketShow.ready Example.platform Example.noExpiresPage 0).interval = false ∧
      (TicketShow.ready Example.platform Example.noExpiresPage 0).reloads = [] ∧
      (TicketShow.ready Example.platform Example.noExpiresPage 0).error = none ∧
      (TicketShow.ready Example.platform Example.noExpiresPage 0).ticks = 0 ∧
      TicketShow.run (TicketShow.ready Example.platform Example.noExpiresPage 0) 2 =
        TicketShow.ready Example.platform Example.noExpiresPage 0) :=
  invalid_timestamps_no_effect Example.platform Example.noServerNowEl none 0 0 [1000, 2000]
    Example.noExpiresPage
    { serverNow := some "2024-01-01T00:00:00Z", validatedAt := some "2024-01-01T00:00:00Z",
      expiresAt := none }
    0 2 (Or.inr (Or.inl (by decide))) rfl (Or.inl (by decide))

end TicketTimer

/-! ## Timestamp localization -/

theorem lookup_setAttr_self (l : List (String × String)) (k v : String) :
    (setAttr l k v).lookup k = some v := by
  induction l with
  | nil => simp [setAttr, List.lookup]
  | cons p l ih =>
    obtain ⟨k0, v0⟩ := p
    unfold setAttr
    by_cases h : k0 = k
    · simp [h, List.lookup]
    · have h' : (k == k0) = false := by
        simpa using fun e : k = k0 => h e.symm
      simp [h, List.lookup, h', ih]

theorem lookup_setAttr_other (l : List (String × String)) (k v k1 : String) (hk : k1 ≠ k) :
    (setAttr l k v).lookup k1 = l.lookup k1 := by
  induction l with
  | nil =>
    have h' : (k1 == k) = false := by simpa using hk
    simp [setAttr, List.lookup, h']
  | cons p l ih =>
    obtain ⟨k0, v0⟩ := p
    unfold setAttr
    by_cases h : k0 = k
    · have h' : (k1 == k) = false := by simpa using hk
      subst h
      simp [List.lookup, h']
    · simp only [h, if_false, List.lookup]
      rw [ih]

namespace LocalTime

/-- C9, counterexample. On a `time` element whose `datetime` is a valid timestamp,
`convert` of `localtime.js` replaces the text and sets no `title` attribute. -/
theorem convert_sets_no_title :
    Example.platform.dateParse "2024-01-01T00:00:00Z" = some 1704067200000 ∧
    (convert Example.platform Example.timeEl).textContent = "locale 1704067200000" ∧
    (convert Example.platform Example.timeEl).getAttribute "title" = none := by
  decide

/-- C9, amended. The raw timestamp is the first truthy one of `data-dt` and `datetime`
for `localizeTimeElement`, and of `datetime`, `data-dt` and the trimmed text for
`convert`. If it is missing or does not parse, either function leaves the element
exactly as it was. If it parses to the date `d`, `localizeTimeElement` replaces the text
by the locale rendering of `d`, sets `title` to `d.toString()` and leaves the classes
and every other attribute as they were; `convert` replaces the text by the locale
rendering of `d` and changes nothing else (it sets no `title`). -/
theorem localization_effect (P : Platform) (el : Element) :
    (match (if truthy (jsOr (el.getAttribute "data-dt") (el.getAttribute "datetime"))
        then P.dateParse ((jsOr (el.getAttribute "data-dt")
          (el.getAttribute "datetime")).getD "") else none) with
      | none => TicketTimer.localizeTimeElement P el = el
      | some d =>
        (TicketTimer.localizeTimeElement P el).textContent = P.dateFmtFormat d ∧
        (TicketTimer.localizeTimeElement P el).getAttribute "title" =
          some (P.dateToString d) ∧
        (TicketTimer.localizeTimeElement P el).classList = el.classList ∧
        ∀ k : String, k ≠ "title" →
          (TicketTimer.localizeTimeElement P el).getAttribute k = el.getAttribute k) ∧
    (match (if truthy (jsOr (jsOr (el.getAttribute "datetime") (el.getAttribute "data-dt"))
          (some (jsTrim el.textContent)))
        then P.dateParse ((jsOr (jsOr (el.getAttribute "datetime")
          (el.getAttribute "data-dt")) (some (jsTrim el.textContent))).getD "") else none) with
      | none => convert P el = el
      | some d => convert P el = { el with textContent := P.toLocaleString d }) := by
  constructor
  · unfold TicketTimer.localizeTimeElement
    simp only []
    by_cases ht : truthy (jsOr (el.getAttribute "data-dt") (el.getAttribute "datetime")) = true
    · simp only [ht, if_true, Bool.not_true, Bool.false_eq_true, if_false]
      cases hd : P.dateParse ((jsOr (el.getAttribute "data-dt")
          (el.getAttribute "datetime")).getD "") with
      | none => rfl
      | some d =>
        refine ⟨rfl, ?_, rfl, ?_⟩
        · exact lookup_setAttr_self _ _ _
        · intro k hk
          exact lookup_setAttr_other _ _ _ _ hk
    · simp [ht]
  · unfold convert
    simp only []
    by_cases ht : truthy (jsOr (jsOr (el.getAttribute "datetime") (el.getAttribute "data-dt"))
        (some (jsTrim el.textContent))) = true
    · simp only [ht, if_true, Bool.not_true, Bool.false_eq_true, if_false]
      cases hd : P.dateParse ((jsOr (jsOr (el.getAttribute "datetime")
          (el.getAttribute "data-dt")) (some (jsTrim el.textContent))).getD "") with
      | none => rfl
      | some d => rfl
    · simp [ht]

end LocalTime

namespace Paiements

/-! ## The payment handler -/

theorem append_ne_empty (a t : String) (h : a ≠ "") : a ++ t ≠ "" := by
  intro e
  apply h
  have hd : (a ++ t).data = [] := by rw [e]
  rw [String.data_append] at hd
  have ha : a.data = [] := (List.append_eq_nil.mp hd).1
  exact String.ext ha

theorem errText_of_message (n m : String) (h : m ≠ "") :
    errText { name := n, message := m } ≠ "" := by
  simp [errText, h]

theorem errText_of_name (e : JsError) (h : e.name ≠ "") : errText e ≠ "" := by
  unfold errText JsError.toString
  by_cases hm : e.message = ""
  · simp [hm, h]
  · simp [hm]

theorem jsOr_default_ne (a : Option String) (s : String) (h : s ≠ "") :
    (jsOr a (some s)).getD "" ≠ "" := by
  unfold jsOr
  cases a with
  | none => simpa [truthy] using h
  | some x =>
    by_cases hx : x = ""
    · simpa [truthy, hx] using h
    · simp [truthy, hx]

end Paiements

namespace Paiements

theorem threeCalls (l : List Call) (a b c : Call) : l ++ [a] ++ [b] ++ [c] = l ++ [a, b, c] := by
  simp

/-- On a failing outcome the `try` block throws an exception whose text is not empty;
it has shown nothing, has not redirected, and has started each step at most once. -/
theorem tryBlock_failing (P : Platform) (env : PayEnv) (ui : Ui)
    (hfail : env.failing P = true) (hnamed : ∀ e ∈ env.thrown, e.name ≠ "") :
    ∃ err u, tryBlock P env ui = (u, some err) ∧ errText err ≠ "" ∧
      u.payBtn = ui.payBtn ∧ u.errBox = ui.errBox ∧ u.alerts = ui.alerts ∧
      u.href = ui.href ∧ ∃ new, u.calls = ui.calls ++ new ∧ (new.map Call.step).Nodup := by
  unfold tryBlock
  unfold PayEnv.failing at hfail
  simp only []
  cases hc : env.createIntent with
  | error e =>
    have hn : e.name ≠ "" := hnamed e (by simp [PayEnv.thrown, thrownBy, hc])
    exact ⟨e, _, rfl, errText_of_name e hn, rfl, rfl, rfl, rfl, [_], rfl, by simp⟩
  | ok resp =>
    rw [hc] at hfail
    simp only [] at hfail ⊢
    cases ht : resp.text with
    | error e =>
      have hn : e.name ≠ "" := hnamed e (by simp [PayEnv.thrown, thrownBy, hc, ht])
      exact ⟨e, _, rfl, errText_of_name e hn, rfl, rfl, rfl, rfl, [_], rfl, by simp⟩
    | ok txt =>
      rw [ht] at hfail
      simp only [] at hfail ⊢
      by_cases hok : resp.ok = true
      · simp only [hok, Bool.not_true, Bool.false_eq_true, if_false, Bool.false_or] at hfail ⊢
        by_cases hnull : (P.jsonParse txt).getD (.object none none none) = Json.null
        · simp only [hnull, if_true]
          exact ⟨_, _, rfl, errText_of_name _ (by simp), rfl, rfl, rfl, rfl, [_], rfl, by simp⟩
        · simp only [hnull, if_false]
          by_cases hcs : truthy ((P.jsonParse txt).getD (.object none none none)).clientSecret
              = true
          · have hparse : (P.jsonParse txt).isNone = false := by
              cases hp : P.jsonParse txt with
              | none => rw [hp] at hcs; simp [Json.clientSecret, truthy] at hcs
              | some j => rfl
            simp only [hcs, hparse, Bool.not_true, Bool.false_eq_true, if_false,
              Bool.false_or] at hfail ⊢
            cases hcf : env.confirm with
            | error e =>
              have hn : e.name ≠ "" := hnamed e (by simp [PayEnv.thrown, hcf])
              exact ⟨e, _, rfl, errText_of_name e hn, rfl, rfl, rfl, rfl, _,
                List.append_assoc _ _ _, by simp [Call.step]⟩
            | ok r =>
              rw [hcf] at hfail
              simp only [] at hfail ⊢
              cases hre : r.error with
              | some se =>
                exact ⟨_, _, rfl, errText_of_message _ _ (jsOr_default_ne _ _ (by decide)), rfl, rfl,
                  rfl, rfl, _, List.append_assoc _ _ _, by simp [Call.step]⟩
              | none =>
                rw [hre] at hfail
                simp only [Option.isSome_none, Bool.false_or] at hfail ⊢
                cases hpi : r.paymentIntent with
                | none => rw [hpi] at hfail; simp at hfail
                | some pi =>
                  rw [hpi] at hfail
                  simp only [Bool.and_eq_true, beq_iff_eq] at hfail ⊢
                  obtain ⟨hst, hfin⟩ := hfail
                  simp only [hst, if_true]
                  cases hf : env.finalize with
                  | error e =>
                    have hn : e.name ≠ "" := hnamed e (by simp [PayEnv.thrown, thrownBy, hf])
                    exact ⟨e, _, rfl, errText_of_name e hn, rfl, rfl, rfl, rfl, _,
                      threeCalls _ _ _ _,
                      by simp [Call.step]⟩
                  | ok fin =>
                    rw [hf] at hfin
                    simp only [Bool.not_eq_true', ] at hfin
                    simp only [hfin, Bool.not_false, if_true]
                    cases hft : fin.text with
                    | error e =>
                      have hn : e.name ≠ "" :=
                        hnamed e (by simp [PayEnv.thrown, thrownBy, hf, hft])
                      exact ⟨e, _, rfl, errText_of_name e hn, rfl, rfl, rfl, rfl, _,
                      threeCalls _ _ _ _,
                      by simp [Call.step]⟩
                    | ok t =>
                      exact ⟨_, _, rfl, errText_of_message _ _ (append_ne_empty _ _ (by decide)), rfl,
                        rfl, rfl, rfl, _, threeCalls _ _ _ _, by simp [Call.step]⟩
          · simp only [hcs, Bool.not_false, if_true]
            exact ⟨_, _, rfl, errText_of_message _ _ (by decide), rfl, rfl, rfl, rfl, [_], rfl,
              by simp⟩
      · simp only [hok, Bool.not_false, if_true]
        exact ⟨_, _, rfl, errText_of_message _ _ (jsOr_default_ne _ _ (by decide)), rfl, rfl, rfl,
          rfl, [_], rfl, by simp⟩

end Paiements

namespace Paiements

/-- C10. For every failing outcome of the payment sequence (`fetch` or `resp.text()`
throws, the response of create-payment-intent is not OK or its body is not JSON,
`client_secret` is missing, `stripe.confirmCardPayment` throws or returns an error, the
request to after-payment throws or its response is not OK), thrown exceptions being
`Error` objects with a name: `onPayClicked` ends with a non-empty message in front of
the user (in the error box, or in the last alert when there is no error box), the pay
button enabled with the label "Payer", `window.location.href` not assigned, and each
step of the sequence started at most once. -/
theorem pay_failure_resets (P : Platform) (env : PayEnv) (ui : Ui) (b : Button)
    (hbtn : ui.payBtn = some b) (hfail : env.failing P = true)
    (hnamed : ∀ e ∈ env.thrown, e.name ≠ "") :
    (∃ m, (onPayClicked P env ui).shown = some m ∧ m ≠ "") ∧
    (onPayClicked P env ui).payBtn = some { disabled := false, innerText := "Payer" } ∧
    (onPayClicked P env ui).href = ui.href ∧
    ∃ new, (onPayClicked P env ui).calls = ui.calls ++ new ∧ (new.map Call.step).Nodup := by
  obtain ⟨err, u, htry, hne, hb, heb, hal, hh, new, hcalls, hnd⟩ :=
    tryBlock_failing P env (setPayLoading true (showError "" ui)) hfail hnamed
  have hbtn1 : (setPayLoading true (showError "" ui)).payBtn =
      some { disabled := true, innerText := "Traitement…" } := by
    unfold setPayLoading showError
    cases he : ui.errBox <;> simp [hbtn]
  have hbox1 : (setPayLoading true (showError "" ui)).errBox = ui.errBox.map (fun _ => "") := by
    unfold setPayLoading showError
    cases he : ui.errBox <;> simp [hbtn]
  have hhref1 : (setPayLoading true (showError "" ui)).href = ui.href := by
    unfold setPayLoading showError
    cases he : ui.errBox <;> simp [hbtn]
  have hcalls1 : (setPayLoading true (showError "" ui)).calls = ui.calls := by
    unfold setPayLoading showError
    cases he : ui.errBox <;> simp [hbtn]
  rw [hbtn1] at hb
  rw [hbox1] at heb
  rw [hhref1] at hh
  rw [hcalls1] at hcalls
  unfold onPayClicked
  simp only [htry]
  cases he : ui.errBox with
  | some t =>
    rw [he] at heb
    refine ⟨⟨errText err, ?_, hne⟩, ?_, ?_, new, ?_, hnd⟩ <;>
      simp [setPayLoading, showError, Ui.shown, hb, heb, hh, hcalls]
  | none =>
    rw [he] at heb
    refine ⟨⟨errText err, ?_, hne⟩, ?_, ?_, new, ?_, hnd⟩ <;>
      simp [setPayLoading, showError, Ui.shown, hb, heb, hh, hcalls]

theorem pay_failure_resets_witness :
    (declinedEnv.failing Example.platform = true ∧
      ∀ e ∈ declinedEnv.thrown, e.name ≠ "") ∧
    ((∃ m, (onPayClicked Example.platform declinedEnv readyUi).shown = some m ∧ m ≠ "") ∧
      (onPayClicked Example.platform declinedEnv readyUi).payBtn =
        some { disabled := false, innerText := "Payer" } ∧
      (onPayClicked Example.platform declinedEnv readyUi).href = readyUi.href ∧
      ∃ new, (onPayClicked Example.platform declinedEnv readyUi).calls =
        readyUi.calls ++ new ∧ (new.map Call.step).Nodup) :=
  ⟨⟨by decide, by decide⟩,
    pay_failure_resets Example.platform declinedEnv readyUi
      { disabled := false, innerText := "Payer" } rfl (by decide) (by decide)⟩


end Paiements


namespace TicketTimer

/-! ## Classes of the countdown element -/

/-- Classes of the element after a tick, from the classes before it. -/
theorem tick_classList (c : Countdown) (now : Int) :
    (tick now c).el.classList =
      if remaining c.expiresAtMs c.offsetMs now ≤ 0 then
        ((c.el.classRemove "text-warning").classAdd "text-danger").classList
      else if remaining c.expiresAtMs c.offsetMs now ≤ 5 * 60 * 1000 then
        (c.el.classAdd "text-warning").classList
      else (c.el.classRemove "text-warning").classList := by
  unfold tick
  simp only []
  by_cases h : remaining c.expiresAtMs c.offsetMs now ≤ 0
  · simp only [h, if_true, tickWrites]
    rfl
  · simp only [h, if_false, tickWrites]
    by_cases h5 : remaining c.expiresAtMs c.offsetMs now ≤ 5 * 60 * 1000
    · simp only [h5, if_true]
      rfl
    · simp only [h5, if_false]
      rfl

theorem mem_classAdd (el : Element) (k : String) : k ∈ (el.classAdd k).classList := by
  unfold Element.classAdd
  by_cases h : k ∈ el.classList <;> simp [h]

theorem not_mem_classRemove (el : Element) (k : String) :
    k ∉ (el.classRemove k).classList := by
  simp [Element.classRemove]

theorem not_mem_classAdd_of_ne (el : Element) (k x : String) (hx : x ≠ k)
    (h : x ∉ el.classList) : x ∉ (el.classAdd k).classList := by
  unfold Element.classAdd
  by_cases hk : k ∈ el.classList <;> simp [hk, h, hx]

/-- C11. After a tick of `ticket_timer.js`, whatever classes the element had before:
with `0 < remaining < 300000` ms it carries `text-warning`; with `remaining > 300000` ms
it does not carry `text-warning`; with `remaining <= 0` it does not carry `text-warning`
and carries `text-danger`. -/
theorem tick_warning_class (c : Countdown) (now : Int) :
    (0 < remaining c.expiresAtMs c.offsetMs now ∧
        remaining c.expiresAtMs c.offsetMs now < 300000 →
      "text-warning" ∈ (tick now c).el.classList) ∧
    (300000 < remaining c.expiresAtMs c.offsetMs now →
      "text-warning" ∉ (tick now c).el.classList) ∧
    (remaining c.expiresAtMs c.offsetMs now ≤ 0 →
      "text-warning" ∉ (tick now c).el.classList ∧
      "text-danger" ∈ (tick now c).el.classList) := by
  rw [tick_classList]
  refine ⟨?_, ?_, ?_⟩
  · rintro ⟨h0, h5⟩
    have h1 : ¬ remaining c.expiresAtMs c.offsetMs now ≤ 0 := by omega
    have h2 : remaining c.expiresAtMs c.offsetMs now ≤ 5 * 60 * 1000 := by omega
    simp only [h1, h2, if_false, if_true]
    exact mem_classAdd _ _
  · intro h5
    have h1 : ¬ remaining c.expiresAtMs c.offsetMs now ≤ 0 := by omega
    have h2 : ¬ remaining c.expiresAtMs c.offsetMs now ≤ 5 * 60 * 1000 := by omega
    simp only [h1, h2, if_false]
    exact not_mem_classRemove _ _
  · intro h0
    simp only [h0, if_true]
    exact ⟨not_mem_classAdd_of_ne _ _ _ (by decide) (not_mem_classRemove _ _),
      mem_classAdd _ _⟩

theorem tick_warning_class_witness :
    "text-warning" ∈
      (tick Example.t0 (Example.running (Example.t0 + 120000) ["fw-bold"])).el.classList ∧
    "text-warning" ∉
      (tick Example.t0 (Example.running (Example.t0 + 600000)
        ["fw-bold", "text-warning"])).el.classList ∧
    ("text-warning" ∉
      (tick Example.t0 (Example.running Example.t0
        ["fw-bold", "text-warning"])).el.classList ∧
     "text-danger" ∈
      (tick Example.t0 (Example.running Example.t0
        ["fw-bold", "text-warning"])).el.classList) :=
  ⟨(tick_warning_class (Example.running (Example.t0 + 120000) ["fw-bold"]) Example.t0).1
      (by decide),
    (tick_warning_class (Example.running (Example.t0 + 600000) ["fw-bold", "text-warning"])
      Example.t0).2.1 (by decide),
    (tick_warning_class (Example.running Example.t0 ["fw-bold", "text-warning"])
      Example.t0).2.2 (by decide)⟩

end TicketTimer

namespace TicketTimer

/-! ## Removal of the countdown element -/

theorem tick_observing (now : Int) (c : Countdown) :
    (tick now c).observing = c.observing := by
  unfold tick
  simp only []
  split <;> rfl

theorem tick_interval_true (now : Int) (c : Countdown) (h : (tick now c).interval = true) :
    c.interval = true := by
  revert h
  unfold tick
  simp only []
  split
  · by_cases ht : c.timerId.isSome = true
    · simp [ht]
    · simp [ht]
  · exact id

/-- While the interval is scheduled, the observer is connected. -/
theorem step_observing (c : Countdown) (e : Event)
    (h : c.interval = true → c.observing = true) :
    (step c e).interval = true → (step c e).observing = true := by
  cases e with
  | fire now =>
    show (fire now c).interval = true → (fire now c).observing = true
    unfold fire
    by_cases hi : c.interval = true
    · simp only [hi, if_true]
      intro _
      rw [tick_observing]
      exact h hi
    · simp only [hi, if_false]
      exact h
  | mutation contained =>
    show (mutation contained c).interval = true → (mutation contained c).observing = true
    unfold mutation
    by_cases ho : c.observing = true
    · cases contained
      · simp [ho]
      · simp [ho]
    · simpa [ho] using h

theorem steps_observing (es : List Event) : ∀ c : Countdown,
    (c.interval = true → c.observing = true) →
    (steps c es).interval = true → (steps c es).observing = true := by
  induction es with
  | nil => intro c h; exact h
  | cons e es ih =>
    intro c h
    exact ih (step c e) (step_observing c e h)

theorem initCountdown_observing (P : Platform) (el : Element) (opts : Option Opts)
    (now0 now1 : Int) :
    (initCountdown P el opts now0 now1).interval = true →
      (initCountdown P el opts now0 now1).observing = true := by
  rcases initCountdown_cases P el opts now0 now1 with h | ⟨e, s, _, _, h⟩
  · rw [h]; intro hi; cases hi
  · rw [h]; intro _; rfl

/-- Once the interval is cleared, no event runs `tick` or writes to the element. -/
theorem steps_stopped (es : List Event) : ∀ c : Countdown, c.interval = false →
    (steps c es).interval = false ∧ (steps c es).ticks = c.ticks ∧
      (steps c es).writes = c.writes ∧ (steps c es).el = c.el := by
  induction es with
  | nil => intro c h; exact ⟨h, rfl, rfl, rfl⟩
  | cons e es ih =>
    intro c h
    have hs : (step c e).interval = false ∧ (step c e).ticks = c.ticks ∧
        (step c e).writes = c.writes ∧ (step c e).el = c.el := by
      cases e with
      | fire now =>
        show (fire now c).interval = false ∧ (fire now c).ticks = c.ticks ∧
          (fire now c).writes = c.writes ∧ (fire now c).el = c.el
        simp [fire, h]
      | mutation contained =>
        show (mutation contained c).interval = false ∧ (mutation contained c).ticks = c.ticks ∧
          (mutation contained c).writes = c.writes ∧ (mutation contained c).el = c.el
        unfold mutation
        split
        · split
          · exact ⟨rfl, rfl, rfl, rfl⟩
          · exact ⟨h, rfl, rfl, rfl⟩
        · exact ⟨h, rfl, rfl, rfl⟩
    obtain ⟨h1, h2, h3, h4⟩ := ih (step c e) hs.1
    exact ⟨h1, h2.trans hs.2.1, h3.trans hs.2.2.1, h4.trans hs.2.2.2⟩

theorem steps_append (c : Countdown) (es fs : List Event) :
    steps c (es ++ fs) = steps (steps c es) fs := by
  simp [steps, List.foldl_append]

end TicketTimer

namespace TicketShow

theorem tick_ticks (s : Show) : (tick s).ticks = s.ticks + 1 := by
  unfold tick
  simp only []
  split
  · split <;> rfl
  · rfl

/-- C12, counterexample. On the ticket page of the 90-second example, after a change of
the document that takes the label out of it, the interval of `ticket_show.js` fires
again: `tick` runs a second time and writes "01m 28s" to the label. -/
theorem removed_label_still_written :
    (steps (ready Example.platform Example.ninetyPage Example.t0)
        [Event.mutation false, Event.fire]).interval = true ∧
    (steps (ready Example.platform Example.ninetyPage Example.t0)
        [Event.mutation false, Event.fire]).ticks = 2 ∧
    labelTexts (steps (ready Example.platform Example.ninetyPage Example.t0)
        [Event.mutation false, Event.fire]) = ["01m 29s", "01m 28s"] := by
  decide

end TicketShow

namespace TicketTimer

/-- C12, amended. For a countdown of `ticket_timer.js`, after any events, once a change of
the document leaves the element outside `document.body` the interval is cleared, and
through every later event no tick runs and nothing is written to the element. The
countdown of `ticket_show.js` has no such cleanup: a change of the document leaves its
state as it is, and the next firing of a still scheduled interval runs `tick`. -/
theorem removal_clears_timer (P : Platform) (el : Element) (opts : Option Opts)
    (now0 now1 : Int) (before after : List Event) (s : TicketShow.Show) (contained : Bool) :
    ((steps (initCountdown P el opts now0 now1) (before ++ [Event.mutation false])).interval
        = false ∧
      (steps (steps (initCountdown P el opts now0 now1) (before ++ [Event.mutation false]))
          after).interval = false ∧
      (steps (steps (initCountdown P el opts now0 now1) (before ++ [Event.mutation false]))
          after).ticks =
        (steps (initCountdown P el opts now0 now1) (before ++ [Event.mutation false])).ticks ∧
      (steps (steps (initCountdown P el opts now0 now1) (before ++ [Event.mutation false]))
          after).writes =
        (steps (initCountdown P el opts now0 now1) (before ++ [Event.mutation false])).writes ∧
      (steps (steps (initCountdown P el opts now0 now1) (before ++ [Event.mutation false]))
          after).el =
        (steps (initCountdown P el opts now0 now1) (before ++ [Event.mutation false])).el) ∧
    (TicketShow.step s (TicketShow.Event.mutation contained) = s ∧
      (TicketShow.steps s [TicketShow.Event.mutation false, TicketShow.Event.fire]).ticks =
        if s.interval then s.ticks + 1 else s.ticks) := by
  have hinv := steps_observing before (initCountdown P el opts now0 now1)
    (initCountdown_observing P el opts now0 now1)
  have hstop : (steps (initCountdown P el opts now0 now1)
      (before ++ [Event.mutation false])).interval = false := by
    rw [steps_append]
    show (mutation false (steps (initCountdown P el opts now0 now1) before)).interval = false
    unfold mutation
    by_cases ho : (steps (initCountdown P el opts now0 now1) before).observing = true
    · simp [ho]
    · simp only [ho, Bool.false_eq_true, if_false]
      by_cases hi : (steps (initCountdown P el opts now0 now1) before).interval = true
      · exact absurd (hinv hi) ho
      · simpa using hi
  refine ⟨⟨hstop, steps_stopped after _ hstop⟩, rfl, ?_⟩
  show (TicketShow.fire s).ticks = _
  unfold TicketShow.fire
  by_cases hi : s.interval = true
  · simp only [hi, if_true, TicketShow.tick_ticks]
  · simp [hi]

end TicketTimer

namespace Paiements

/-! ## The amount of a payment -/

theorem showError_calls (msg : String) (ui : Ui) : (showError msg ui).calls = ui.calls := by
  unfold showError
  cases ui.errBox <;> rfl

theorem setPayLoading_calls (yes : Bool) (ui : Ui) :
    (setPayLoading yes ui).calls = ui.calls := by
  unfold setPayLoading
  cases ui.payBtn <;> rfl

/-- The first step the `try` block starts is the request to create-payment-intent, with
the amount, type and quantity that `computeAmountCents` returns. -/
theorem tryBlock_first_call (P : Platform) (env : PayEnv) (ui : Ui) :
    ∃ rest, (tryBlock P env ui).1.calls =
      ui.calls ++ Call.createIntent (computeAmountCents env.typeValue env.qtyValue).amount
        (computeAmountCents env.typeValue env.qtyValue).type
        (computeAmountCents env.typeValue env.qtyValue).qty :: rest := by
  unfold tryBlock
  simp only []
  repeat' split
  all_goals
    first
    | exact ⟨[], rfl⟩
    | exact ⟨_, List.append_assoc _ _ _⟩
    | exact ⟨_, threeCalls _ _ _ _⟩
    | exact ⟨_, (showError_calls _ _).trans (List.append_assoc _ _ _)⟩

theorem computeAmountCents_type (typeValue qtyValue : Option String) :
    (computeAmountCents typeValue qtyValue).type =
      (if truthy typeValue then typeValue.getD "" else "single") := by
  show (jsOr typeValue (some "single")).getD "single" = _
  unfold jsOr
  cases typeValue with
  | none => rfl
  | some t => by_cases h : truthy (some t) = true <;> simp [h]

theorem computeAmountCents_qty (typeValue qtyValue : Option String) :
    (computeAmountCents typeValue qtyValue).qty =
      (match qtyValue.bind parseInt10 with
        | some n => if 1 ≤ n then n else 1
        | none => 1) := by
  show max (1 : Int) (match qtyValue.bind parseInt10 with
    | some n => if n != 0 then n else 1
    | none => 1) = _
  cases qtyValue.bind parseInt10 with
  | none => rfl
  | some n =>
    simp only []
    by_cases h0 : n = 0
    · subst h0; rfl
    · by_cases h1 : 1 ≤ n
      · simp only [bne_iff_ne, ne_eq, h0, not_false_eq_true, if_true, h1]
        omega
      · simp only [bne_iff_ne, ne_eq, h0, not_false_eq_true, if_true, h1, if_false]
        omega

theorem computeAmountCents_qty_pos (typeValue qtyValue : Option String) :
    1 ≤ (computeAmountCents typeValue qtyValue).qty :=
  le_max_left _ _

theorem computeAmountCents_unit (typeValue qtyValue : Option String) :
    (computeAmountCents typeValue qtyValue).amount =
      (match PRICES.lookup (computeAmountCents typeValue qtyValue).type with
        | some p => some p
        | none =>
          if (computeAmountCents typeValue qtyValue).type ∈ objectPrototypeKeys then none
          else some 150).map (fun u => u * (computeAmountCents typeValue qtyValue).qty) :=
  rfl

theorem PRICES_lookup_ge (t : String) (p : Int) (h : PRICES.lookup t = some p) : 150 ≤ p := by
  unfold PRICES at h
  simp only [List.lookup] at h
  repeat' split at h
  all_goals cases h
  all_goals norm_num

/-- C13, counterexample. With the type "year", which is not a key of `PRICES`, and the
quantity "2", `computeAmountCents` returns the type "year" with the amount 300, twice the
price of `single`, and `onPayClicked` sends that amount with that type. -/
theorem unknown_type_priced_as_single :
    PRICES.lookup "year" = none ∧
    computeAmountCents (some "year") (some "2") =
      { amount := some 300, type := "year", qty := 2 } ∧
    (onPayClicked Example.platform Example.yearEnv readyUi).calls =
      [Call.createIntent (some 300) "year" 2] := by
  decide

/-- C13, amended. For every selected type and every quantity input whose parsed value,
if any, times 4500 (the highest unit price) is a safe integer, so that `parseInt` and the
product are exact in the code, `computeAmountCents` returns: as type the selected value,
or "single" when there is none or it is empty; as quantity the parsed quantity when it
is at least 1, and 1 when it is missing, unparseable, zero or negative; as amount that
quantity times the `PRICES` entry of the returned type when the type is a key of
`PRICES`, and times 150, the price of `single`, when it is not (names inherited from
`Object.prototype` apart). The amount is then a safe integer of at least 150, and it is
sent with the returned type and quantity as the first request of `onPayClicked`. -/
theorem computeAmountCents_amount (P : Platform) (env : PayEnv) (ui : Ui)
    (hqty : ∀ n, env.qtyValue.bind parseInt10 = some n → safeInteger (4500 * n)) :
    (computeAmountCents env.typeValue env.qtyValue).type =
      (if truthy env.typeValue then env.typeValue.getD "" else "single") ∧
    (computeAmountCents env.typeValue env.qtyValue).qty =
      (match env.qtyValue.bind parseInt10 with
        | some n => if 1 ≤ n then n else 1
        | none => 1) ∧
    1 ≤ (computeAmountCents env.typeValue env.qtyValue).qty ∧
    (match PRICES.lookup (computeAmountCents env.typeValue env.qtyValue).type with
      | some p =>
        (computeAmountCents env.typeValue env.qtyValue).amount =
          some (p * (computeAmountCents env.typeValue env.qtyValue).qty)
      | none =>
        (computeAmountCents env.typeValue env.qtyValue).type ∈ objectPrototypeKeys ∨
        (computeAmountCents env.typeValue env.qtyValue).amount =
          some (150 * (computeAmountCents env.typeValue env.qtyValue).qty)) ∧
    ((computeAmountCents env.typeValue env.qtyValue).type ∈ objectPrototypeKeys ∨
      ∃ v, (computeAmountCents env.typeValue env.qtyValue).amount = some v ∧ 150 ≤ v) ∧
    safeInteger (4500 * (computeAmountCents env.typeValue env.qtyValue).qty) ∧
    (∃ rest, (onPayClicked P env ui).calls =
      ui.calls ++ Call.createIntent (computeAmountCents env.typeValue env.qtyValue).amount
        (computeAmountCents env.typeValue env.qtyValue).type
        (computeAmountCents env.typeValue env.qtyValue).qty :: rest) := by
  refine ⟨computeAmountCents_type _ _, computeAmountCents_qty _ _,
    computeAmountCents_qty_pos _ _, ?_, ?_, ?_, ?_⟩
  rotate_left 2
  · rw [computeAmountCents_qty]
    cases hp : env.qtyValue.bind parseInt10 with
    | none => decide
    | some n =>
      have hn := hqty n hp
      simp only []
      by_cases h1 : 1 ≤ n
      · simpa only [h1, if_true] using hn
      · simp only [h1, if_false]
        decide
  rotate_left 1
  · rw [computeAmountCents_unit]
    cases hl : PRICES.lookup (computeAmountCents env.typeValue env.qtyValue).type with
    | some p => rfl
    | none =>
      by_cases hk : (computeAmountCents env.typeValue env.qtyValue).type ∈ objectPrototypeKeys
      · exact Or.inl hk
      · right
        simp only [hk, if_false, Option.map_some']
  · have hq := computeAmountCents_qty_pos env.typeValue env.qtyValue
    rw [computeAmountCents_unit]
    cases hl : PRICES.lookup (computeAmountCents env.typeValue env.qtyValue).type with
    | some p =>
      right
      have hp := PRICES_lookup_ge _ _ hl
      refine ⟨p * (computeAmountCents env.typeValue env.qtyValue).qty, rfl, ?_⟩
      have := mul_le_mul hp hq (by norm_num) (by omega)
      simpa using this
    | none =>
      by_cases hk : (computeAmountCents env.typeValue env.qtyValue).type ∈ objectPrototypeKeys
      · exact Or.inl hk
      · right
        simp only [hk, if_false, Option.map_some']
        exact ⟨_, rfl, by omega⟩
  · obtain ⟨rest, h⟩ := tryBlock_first_call P env (setPayLoading true (showError "" ui))
    rw [setPayLoading_calls, showError_calls] at h
    refine ⟨rest, ?_⟩
    rw [← h]
    unfold onPayClicked
    simp only []
    rw [setPayLoading_calls]
    cases (tryBlock P env (setPayLoading true (showError "" ui))).2 with
    | none => rfl
    | some err => exact showError_calls _ _

theorem computeAmountCents_amount_witness :
    (computeAmountCents Example.yearEnv.typeValue Example.yearEnv.qtyValue).type =
      (if truthy Example.yearEnv.typeValue then Example.yearEnv.typeValue.getD ""
        else "single") ∧
    (computeAmountCents Example.yearEnv.typeValue Example.yearEnv.qtyValue).qty =
      (match Example.yearEnv.qtyValue.bind parseInt10 with
        | some n => if 1 ≤ n then n else 1
        | none => 1) ∧
    1 ≤ (computeAmountCents Example.yearEnv.typeValue Example.yearEnv.qtyValue).qty ∧
    (match PRICES.lookup
        (computeAmountCents Example.yearEnv.typeValue Example.yearEnv.qtyValue).type with
      | some p =>
        (computeAmountCents Example.yearEnv.typeValue Example.yearEnv.qtyValue).amount =
          some (p * (computeAmountCents Example.yearEnv.typeValue
            Example.yearEnv.qtyValue).qty)
      | none =>
        (computeAmountCents Example.yearEnv.typeValue Example.yearEnv.qtyValue).type ∈
          objectPrototypeKeys ∨
        (computeAmountCents Example.yearEnv.typeValue Example.yearEnv.qtyValue).amount =
          some (150 * (computeAmountCents Example.yearEnv.typeValue
            Example.yearEnv.qtyValue).qty)) ∧
    ((computeAmountCents Example.yearEnv.typeValue Example.yearEnv.qtyValue).type ∈
        objectPrototypeKeys ∨
      ∃ v, (computeAmountCents Example.yearEnv.typeValue Example.yearEnv.qtyValue).amount =
        some v ∧ 150 ≤ v) ∧
    safeInteger
      (4500 * (computeAmountCents Example.yearEnv.typeValue Example.yearEnv.qtyValue).qty) ∧
    (∃ rest, (onPayClicked Example.platform Example.yearEnv readyUi).calls =
      readyUi.calls ++
        Call.createIntent
          (computeAmountCents Example.yearEnv.typeValue Example.yearEnv.qtyValue).amount
          (computeAmountCents Example.yearEnv.typeValue Example.yearEnv.qtyValue).type
          (computeAmountCents Example.yearEnv.typeValue Example.yearEnv.qtyValue).qty ::
        rest) :=
  computeAmountCents_amount Example.platform Example.yearEnv readyUi
    (fun n hn => by
      have h2 : Example.yearEnv.qtyValue.bind parseInt10 = some 2 := by decide
      rw [h2] at hn
      cases hn
      decide)

end Paiements

end BusCity
